import Mathlib

/-!
Verification of the xiuminglib image helpers.

A shallow embedding of the EXR channel-extraction routines
(xiuminglib/io/exr.py), the Blender light helpers
(xiuminglib/blender/light.py) and the video assembly helper
(xiuminglib/vid.py).  Pixel values are modelled as rationals; a 2-D
channel is a list of rows, and a 3-D raster (height x width x channels)
is a list of rows of pixels, where a pixel is the list of its channel
values.  Fallible code (assertions, out-of-range maxima) is modelled
with Option or an explicit failure field.
-/

/-- A 2-D image channel: rows of pixel values. -/
abbrev Channel := List (List ℚ)

/-- A 3-D raster (height x width x channels): rows of pixels. -/
abbrev Raster3 := List (List (List ℚ))

/-- Value of a channel at row i, column j (0 outside bounds). -/
def chVal (c : Channel) (i j : ℕ) : ℚ := (c.getD i []).getD j 0

/-- Value of a 3-D raster at row i, column j, channel k (0 outside bounds). -/
def rVal (a : Raster3) (i j k : ℕ) : ℚ := ((a.getD i []).getD j []).getD k 0

/-- A channel has h rows, each of width w. -/
def chShape (c : Channel) (h w : ℕ) : Prop :=
  c.length = h ∧ ∀ row ∈ c, row.length = w

/-- A 3-D raster has h rows of w pixels, each pixel holding k channel values. -/
def rShape (a : Raster3) (h w k : ℕ) : Prop :=
  a.length = h ∧ ∀ row ∈ a, row.length = w ∧ ∀ px ∈ row, px.length = k

instance (c : Channel) (h w : ℕ) : Decidable (chShape c h w) := by
  unfold chShape; infer_instance

instance (a : Raster3) (h w k : ℕ) : Decidable (rShape a h w k) := by
  unfold rShape; infer_instance

/-- Elementwise map over a channel. -/
def mapPix (f : ℚ → ℚ) (c : Channel) : Channel := c.map (List.map f)

/-- Elementwise combination of two channels. -/
def zipPix (f : ℚ → ℚ → ℚ) (a b : Channel) : Channel :=
  List.zipWith (List.zipWith f) a b

section IndexLemmas

variable {α β γ : Type}

lemma getD_map_lt (f : α → β) (l : List α) (i : ℕ) (d : β) (d0 : α)
    (h : i < l.length) : (l.map f).getD i d = f (l.getD i d0) := by
  rw [List.getD_eq_getElem _ d (by simpa using h), List.getD_eq_getElem _ d0 h,
    List.getElem_map]

lemma getD_zipWith_lt (f : α → β → γ) (a : List α) (b : List β) (i : ℕ)
    (d : γ) (da : α) (db : β) (ha : i < a.length) (hb : i < b.length) :
    (List.zipWith f a b).getD i d = f (a.getD i da) (b.getD i db) := by
  rw [List.getD_eq_getElem _ d (by simp; omega), List.getD_eq_getElem _ da ha,
    List.getD_eq_getElem _ db hb, List.getElem_zipWith]

lemma getD_concat_self (l : List α) (v d : α) : (l ++ [v]).getD l.length d = v := by
  induction l with
  | nil => rfl
  | cons x xs ih => exact ih

lemma getD_mem_of_lt (l : List α) (i : ℕ) (d : α) (h : i < l.length) :
    l.getD i d ∈ l := by
  rw [List.getD_eq_getElem _ d h]
  exact List.getElem_mem h

end IndexLemmas

lemma chShape_row (c : Channel) (h w : ℕ) (hs : chShape c h w) (i : ℕ)
    (hi : i < h) : (c.getD i []).length = w := by
  exact hs.2 _ (getD_mem_of_lt c i [] (hs.1 ▸ hi))

lemma chVal_mem_flatten (c : Channel) (h w : ℕ) (hs : chShape c h w)
    (i j : ℕ) (hi : i < h) (hj : j < w) : chVal c i j ∈ c.flatten := by
  rw [List.mem_flatten]
  refine ⟨c.getD i [], getD_mem_of_lt c i [] (hs.1 ▸ hi), ?_⟩
  exact getD_mem_of_lt _ j 0 ((chShape_row c h w hs i hi) ▸ hj)

lemma mapPix_shape (f : ℚ → ℚ) (c : Channel) (h w : ℕ) (hs : chShape c h w) :
    chShape (mapPix f c) h w := by
  constructor
  · simpa [mapPix] using hs.1
  · intro row hrow
    rcases List.mem_map.1 hrow with ⟨r, hr, rfl⟩
    simpa using hs.2 r hr

lemma chVal_mapPix (f : ℚ → ℚ) (c : Channel) (h w : ℕ) (hs : chShape c h w)
    (i j : ℕ) (hi : i < h) (hj : j < w) :
    chVal (mapPix f c) i j = f (chVal c i j) := by
  unfold chVal mapPix
  rw [getD_map_lt _ _ _ _ [] (hs.1 ▸ hi)]
  exact getD_map_lt f _ j 0 0 ((chShape_row c h w hs i hi) ▸ hj)

lemma mem_zipWith {α β γ : Type} {f : α → β → γ} :
    ∀ {a : List α} {b : List β} {x : γ},
      x ∈ List.zipWith f a b → ∃ u ∈ a, ∃ v ∈ b, x = f u v
  | [], _, _, hx => by simp at hx
  | _ :: _, [], _, hx => by simp at hx
  | u :: us, v :: vs, x, hx => by
    rcases List.mem_cons.1 hx with rfl | hx
    · exact ⟨u, List.mem_cons_self _ _, v, List.mem_cons_self _ _, rfl⟩
    · rcases mem_zipWith hx with ⟨u1, hu, v1, hv, rfl⟩
      exact ⟨u1, List.mem_cons_of_mem _ hu, v1, List.mem_cons_of_mem _ hv, rfl⟩

lemma zipPix_shape (f : ℚ → ℚ → ℚ) (a b : Channel) (h w : ℕ)
    (ha : chShape a h w) (hb : chShape b h w) : chShape (zipPix f a b) h w := by
  constructor
  · simp [zipPix, ha.1, hb.1]
  · intro row hrow
    rcases mem_zipWith hrow with ⟨ra, hra, rb, hrb, rfl⟩
    simp [List.length_zipWith, ha.2 ra hra, hb.2 rb hrb]

lemma chVal_zipPix (f : ℚ → ℚ → ℚ) (a b : Channel) (h w : ℕ)
    (ha : chShape a h w) (hb : chShape b h w) (i j : ℕ) (hi : i < h) (hj : j < w) :
    chVal (zipPix f a b) i j = f (chVal a i j) (chVal b i j) := by
  unfold chVal zipPix
  rw [getD_zipWith_lt _ _ _ _ _ [] [] (ha.1 ▸ hi) (hb.1 ▸ hi)]
  exact getD_zipWith_lt f _ _ j 0 0 0 ((chShape_row a h w ha i hi) ▸ hj)
    ((chShape_row b h w hb i hi) ▸ hj)

/-- numpy-style max of a flat value list: none on the empty list
(numpy raises there), otherwise the left fold of max. -/
def npMax : List ℚ → Option ℚ
  | [] => none
  | x :: xs => some (xs.foldl max x)

/-- numpy-style min of a flat value list. -/
def npMin : List ℚ → Option ℚ
  | [] => none
  | x :: xs => some (xs.foldl min x)

lemma foldl_max_spec (xs : List ℚ) : ∀ a : ℚ,
    (xs.foldl max a = a ∨ xs.foldl max a ∈ xs) ∧
      a ≤ xs.foldl max a ∧ ∀ x ∈ xs, x ≤ xs.foldl max a := by
  induction xs with
  | nil => intro a; simp
  | cons y ys ih =>
    intro a
    rcases ih (max a y) with ⟨hmem, hle, hall⟩
    have hfold : (y :: ys).foldl max a = ys.foldl max (max a y) := rfl
    refine ⟨?_, ?_, ?_⟩
    · rcases hmem with hm | hm
      · rcases max_choice a y with hc | hc
        · left; rw [hfold, hm]; exact hc
        · right; rw [hfold, hm, hc]; exact List.mem_cons_self y ys
      · right; rw [hfold]; exact List.mem_cons_of_mem y hm
    · exact le_trans (le_max_left a y) hle
    · intro x hx
      rcases List.mem_cons.1 hx with rfl | hx
      · exact le_trans (le_max_right a x) hle
      · exact hall x hx

lemma npMax_spec (l : List ℚ) (m : ℚ) (h : npMax l = some m) :
    m ∈ l ∧ ∀ x ∈ l, x ≤ m := by
  cases l with
  | nil => simp [npMax] at h
  | cons x xs =>
    simp only [npMax, Option.some.injEq] at h
    subst h
    rcases foldl_max_spec xs x with ⟨hmem, hle, hall⟩
    constructor
    · rcases hmem with hm | hm
      · rw [hm]; exact List.mem_cons_self x xs
      · exact List.mem_cons_of_mem x hm
    · intro y hy
      rcases List.mem_cons.1 hy with rfl | hy
      · exact hle
      · exact hall y hy

lemma foldl_min_spec (xs : List ℚ) : ∀ a : ℚ,
    (xs.foldl min a = a ∨ xs.foldl min a ∈ xs) ∧
      xs.foldl min a ≤ a ∧ ∀ x ∈ xs, xs.foldl min a ≤ x := by
  induction xs with
  | nil => intro a; simp
  | cons y ys ih =>
    intro a
    rcases ih (min a y) with ⟨hmem, hle, hall⟩
    have hfold : (y :: ys).foldl min a = ys.foldl min (min a y) := rfl
    refine ⟨?_, ?_, ?_⟩
    · rcases hmem with hm | hm
      · rcases min_choice a y with hc | hc
        · left; rw [hfold, hm]; exact hc
        · right; rw [hfold, hm, hc]; exact List.mem_cons_self y ys
      · right; rw [hfold]; exact List.mem_cons_of_mem y hm
    · exact le_trans hle (min_le_left a y)
    · intro x hx
      rcases List.mem_cons.1 hx with rfl | hx
      · exact le_trans hle (min_le_right a x)
      · exact hall x hx

lemma npMin_spec (l : List ℚ) (m : ℚ) (h : npMin l = some m) :
    m ∈ l ∧ ∀ x ∈ l, m ≤ x := by
  cases l with
  | nil => simp [npMin] at h
  | cons x xs =>
    simp only [npMin, Option.some.injEq] at h
    subst h
    rcases foldl_min_spec xs x with ⟨hmem, hle, hall⟩
    constructor
    · rcases hmem with hm | hm
      · rw [hm]; exact List.mem_cons_self x xs
      · exact List.mem_cons_of_mem x hm
    · intro y hy
      rcases List.mem_cons.1 hy with rfl | hy
      · exact hle
      · exact hall y hy

/-! ## EXR.extract_depth (xiuminglib/io/exr.py) -/

/-- np.iinfo(uint8).max. -/
def dtype_max : ℚ := 255

/-- Source line: depth[depth > max_val] = max_val. -/
def capBackground (max_val : ℚ) (depth : Channel) : Channel :=
  mapPix (fun x => if max_val < x then max_val else x) depth

/-- Source line: im = dtype_max * (max_val - depth) / (max_val - min_val). -/
def rescaleDepth (max_val min_val : ℚ) (depth : Channel) : Channel :=
  mapPix (fun x => dtype_max * (max_val - x) / (max_val - min_val)) depth

/-- The vis_raw block of EXR.extract_depth: foreground mask is
depth < depth.max(); background is capped at the foreground maximum; the
capped depth is rescaled.  none models the numpy error raised when the
max or min of an empty selection is taken. -/
def visRawDepth (depth : Channel) : Option Channel :=
  (npMax depth.flatten).bind (fun gmax =>
    (npMax (depth.flatten.filter (fun x => decide (x < gmax)))).bind (fun max_val =>
      (npMin (capBackground max_val depth).flatten).bind (fun min_val =>
        some (rescaleDepth max_val min_val (capBackground max_val depth)))))

/-- Source line: im = np.multiply(alpha, im) + np.multiply(1 - alpha, bg)
with bg = np.zeros(im.shape). -/
def compositeOnBlack (alpha im : Channel) : Channel :=
  zipPix (fun a v => a * v + (1 - a) * 0) alpha im

/-- Channel k of an h x w x c raster (numpy arr[:, :, k]). -/
def channelOf (a : Raster3) (k : ℕ) : Channel :=
  a.map (fun row => row.map (fun px => px.getD k 0))

/-- np.dstack of an h x w x c raster with one extra channel: every pixel
gets the channel value appended. -/
def dstackWith (a : Raster3) (c : Channel) : Raster3 :=
  List.zipWith (List.zipWith (fun px v => px ++ [v])) a c

/-- Ways EXR.extract_depth can fail: one of the two channel-identity
assertions, or the numpy error from an empty foreground selection. -/
inductive DepthFailure where
  | alphaMismatch : DepthFailure
  | depthMismatch : DepthFailure
  | emptyForeground : DepthFailure
deriving DecidableEq

/-- Effect record of one EXR.extract_depth call: the .npy array written
(if the write was reached), the visualization written (if produced), and
the failure aborting the call (if any). -/
structure DepthRun where
  saved : Option Raster3
  vis : Option Channel
  failed : Option DepthFailure
deriving DecidableEq

/-- EXR.extract_depth: assert the three alpha channels identical, assert
the three depth channels identical, write np.dstack((arr, alpha)), then
under vis_raw cap and rescale the depth and composite it on black. -/
def extract_depth (alpha_arr depth_arr : Raster3) (vis_raw : Bool) : DepthRun :=
  if channelOf alpha_arr 0 = channelOf alpha_arr 1 ∧
      channelOf alpha_arr 1 = channelOf alpha_arr 2 then
    if channelOf depth_arr 0 = channelOf depth_arr 1 ∧
        channelOf depth_arr 1 = channelOf depth_arr 2 then
      let alpha := channelOf alpha_arr 0
      let depth := channelOf depth_arr 0
      let saved := dstackWith depth_arr alpha
      if vis_raw then
        match visRawDepth depth with
        | some im =>
          { saved := some saved, vis := some (compositeOnBlack alpha im),
            failed := none }
        | none =>
          { saved := some saved, vis := none, failed := some .emptyForeground }
      else { saved := some saved, vis := none, failed := none }
    else { saved := none, vis := none, failed := some .depthMismatch }
  else { saved := none, vis := none, failed := some .alphaMismatch }

lemma mem_mapPix_flatten (f : ℚ → ℚ) (c : Channel) (x : ℚ)
    (hx : x ∈ (mapPix f c).flatten) : ∃ y ∈ c.flatten, x = f y := by
  rcases List.mem_flatten.1 hx with ⟨row, hrow, hxr⟩
  rcases List.mem_map.1 hrow with ⟨r, hr, rfl⟩
  rcases List.mem_map.1 hxr with ⟨y, hy, rfl⟩
  exact ⟨y, List.mem_flatten.2 ⟨r, hr, hy⟩, rfl⟩

lemma capBackground_le (m : ℚ) (d : Channel) (x : ℚ)
    (hx : x ∈ (capBackground m d).flatten) : x ≤ m := by
  rcases mem_mapPix_flatten _ _ x hx with ⟨y, hy, rfl⟩
  by_cases hc : m < y
  · simp [hc]
  · simp [hc]; exact le_of_not_lt hc

lemma rescale_nonneg_le (max_val min_val x : ℚ) (hlt : min_val < max_val)
    (hle : x ≤ max_val) (hge : min_val ≤ x) :
    0 ≤ dtype_max * (max_val - x) / (max_val - min_val) ∧
      dtype_max * (max_val - x) / (max_val - min_val) ≤ 255 := by
  have hD : (0 : ℚ) < max_val - min_val := by linarith
  constructor
  · exact div_nonneg (mul_nonneg (by norm_num [dtype_max]) (by linarith)) (le_of_lt hD)
  · rw [div_le_iff₀ hD]
    simp only [dtype_max]
    nlinarith

lemma rescale_at_min (max_val min_val : ℚ) (hlt : min_val < max_val) :
    dtype_max * (max_val - min_val) / (max_val - min_val) = 255 := by
  rw [mul_div_assoc, div_self (ne_of_gt (by linarith)), mul_one]
  norm_num [dtype_max]

lemma visRawDepth_eq (depth : Channel) (gmax max_val min_val : ℚ)
    (h1 : npMax depth.flatten = some gmax)
    (h2 : npMax (depth.flatten.filter (fun x => decide (x < gmax))) = some max_val)
    (h3 : npMin (capBackground max_val depth).flatten = some min_val) :
    visRawDepth depth =
      some (rescaleDepth max_val min_val (capBackground max_val depth)) := by
  unfold visRawDepth
  rw [h1, Option.some_bind, h2, Option.some_bind, h3, Option.some_bind]

/-- Claim C2: in the vis_raw path of EXR.extract_depth, with a foreground
(pixels strictly below the global maximum) that is nonempty and holds two
distinct depth values, the background is capped at the foreground maximum
and the capped depth is rescaled by x to dtype_max * (max_val - x) /
(max_val - min_val); the capped foreground maximum maps to 0, the
foreground minimum maps to 255, and every rescaled value lies in
[0, 255]. -/
theorem claim_C2 (depth : Channel) (gmax max_val min_val : ℚ)
    (h1 : npMax depth.flatten = some gmax)
    (h2 : npMax (depth.flatten.filter (fun x => decide (x < gmax))) = some max_val)
    (h3 : npMin (capBackground max_val depth).flatten = some min_val)
    (h4 : min_val < max_val) :
    visRawDepth depth =
      some (rescaleDepth max_val min_val (capBackground max_val depth)) ∧
    ∀ x ∈ (capBackground max_val depth).flatten,
      (0 ≤ dtype_max * (max_val - x) / (max_val - min_val) ∧
        dtype_max * (max_val - x) / (max_val - min_val) ≤ 255) ∧
      (x = max_val → dtype_max * (max_val - x) / (max_val - min_val) = 0) ∧
      (x = min_val → dtype_max * (max_val - x) / (max_val - min_val) = 255) := by
  refine ⟨visRawDepth_eq depth gmax max_val min_val h1 h2 h3, ?_⟩
  intro x hx
  have hxle := capBackground_le max_val depth x hx
  have hxge := (npMin_spec _ _ h3).2 x hx
  refine ⟨rescale_nonneg_le max_val min_val x h4 hxle hxge, ?_, ?_⟩
  · intro hx0
    rw [hx0]
    simp
  · intro hx1
    rw [hx1]
    exact rescale_at_min max_val min_val h4

theorem claim_C2_witness :
    visRawDepth [[(1 : ℚ), 2, 3]] =
      some (rescaleDepth 2 1 (capBackground 2 [[(1 : ℚ), 2, 3]])) ∧
    ∀ x ∈ (capBackground 2 [[(1 : ℚ), 2, 3]]).flatten,
      (0 ≤ dtype_max * (2 - x) / (2 - 1) ∧
        dtype_max * (2 - x) / (2 - 1) ≤ 255) ∧
      (x = 2 → dtype_max * (2 - x) / (2 - 1) = 0) ∧
      (x = 1 → dtype_max * (2 - x) / (2 - 1) = 255) :=
  claim_C2 [[(1 : ℚ), 2, 3]] 3 2 1 (by decide) (by decide) (by decide) (by decide)

lemma extract_depth_pass (alpha_arr depth_arr : Raster3) (vr : Bool)
    (hA : channelOf alpha_arr 0 = channelOf alpha_arr 1 ∧
      channelOf alpha_arr 1 = channelOf alpha_arr 2)
    (hD : channelOf depth_arr 0 = channelOf depth_arr 1 ∧
      channelOf depth_arr 1 = channelOf depth_arr 2) :
    (extract_depth alpha_arr depth_arr vr).saved =
        some (dstackWith depth_arr (channelOf alpha_arr 0)) ∧
      ((extract_depth alpha_arr depth_arr vr).failed = none ∨
        (extract_depth alpha_arr depth_arr vr).failed =
          some DepthFailure.emptyForeground) := by
  unfold extract_depth
  rw [if_pos hA, if_pos hD]
  cases vr
  · simp
  · cases hv : visRawDepth (channelOf depth_arr 0) <;> simp [hv]

lemma extract_depth_vis_eq (alpha_arr depth_arr : Raster3) (im : Channel)
    (hA : channelOf alpha_arr 0 = channelOf alpha_arr 1 ∧
      channelOf alpha_arr 1 = channelOf alpha_arr 2)
    (hD : channelOf depth_arr 0 = channelOf depth_arr 1 ∧
      channelOf depth_arr 1 = channelOf depth_arr 2)
    (hv : visRawDepth (channelOf depth_arr 0) = some im) :
    (extract_depth alpha_arr depth_arr true).vis =
      some (compositeOnBlack (channelOf alpha_arr 0) im) := by
  unfold extract_depth
  rw [if_pos hA, if_pos hD]
  simp [hv]

/-- Claim C7: with vis_raw enabled, on inputs passing the channel
assertions whose alpha values lie in [0, 1] and whose foreground holds
two distinct depth values, the visualization is alpha * rescaled +
(1 - alpha) * 0 on a black background, every visualization value lies in
[0, 255], and a pixel with alpha 0 is pure black. -/
theorem claim_C7 (alpha_arr depth_arr : Raster3) (h w : ℕ)
    (gmax max_val min_val : ℚ)
    (hA : channelOf alpha_arr 0 = channelOf alpha_arr 1 ∧
      channelOf alpha_arr 1 = channelOf alpha_arr 2)
    (hD : channelOf depth_arr 0 = channelOf depth_arr 1 ∧
      channelOf depth_arr 1 = channelOf depth_arr 2)
    (hsa : chShape (channelOf alpha_arr 0) h w)
    (hsd : chShape (channelOf depth_arr 0) h w)
    (halpha : ∀ x ∈ (channelOf alpha_arr 0).flatten, 0 ≤ x ∧ x ≤ 1)
    (h1 : npMax (channelOf depth_arr 0).flatten = some gmax)
    (h2 : npMax ((channelOf depth_arr 0).flatten.filter
      (fun x => decide (x < gmax))) = some max_val)
    (h3 : npMin (capBackground max_val (channelOf depth_arr 0)).flatten =
      some min_val)
    (h4 : min_val < max_val) :
    ∃ v, (extract_depth alpha_arr depth_arr true).vis = some v ∧
      ∀ i j, i < h → j < w →
        (0 ≤ chVal v i j ∧ chVal v i j ≤ 255) ∧
        (chVal (channelOf alpha_arr 0) i j = 0 → chVal v i j = 0) := by
  have hvis := visRawDepth_eq (channelOf depth_arr 0) gmax max_val min_val h1 h2 h3
  set alpha := channelOf alpha_arr 0 with halphadef
  set depth := channelOf depth_arr 0 with hdepthdef
  set im := rescaleDepth max_val min_val (capBackground max_val depth) with himdef
  refine ⟨compositeOnBlack alpha im,
    extract_depth_vis_eq alpha_arr depth_arr im hA hD hvis, ?_⟩
  intro i j hi hj
  have hcap : chShape (capBackground max_val depth) h w := mapPix_shape _ _ _ _ hsd
  have him : chShape im h w := mapPix_shape _ _ _ _ hcap
  have hzip := chVal_zipPix (fun a v => a * v + (1 - a) * 0) alpha im h w hsa him i j hi hj
  have ha := halpha (chVal alpha i j) (chVal_mem_flatten alpha h w hsa i j hi hj)
  have hcapval : chVal im i j =
      dtype_max * (max_val - chVal (capBackground max_val depth) i j) /
        (max_val - min_val) := by
    rw [himdef]
    exact chVal_mapPix _ _ h w hcap i j hi hj
  have hmem : chVal (capBackground max_val depth) i j ∈
      (capBackground max_val depth).flatten :=
    chVal_mem_flatten _ h w hcap i j hi hj
  have hb := rescale_nonneg_le max_val min_val
    (chVal (capBackground max_val depth) i j) h4
    (capBackground_le max_val depth _ hmem) ((npMin_spec _ _ h3).2 _ hmem)
  rw [← hcapval] at hb
  unfold compositeOnBlack
  rw [hzip]
  dsimp only
  refine ⟨⟨?_, ?_⟩, ?_⟩
  · nlinarith [ha.1, ha.2, hb.1, hb.2]
  · nlinarith [ha.1, ha.2, hb.1, hb.2]
  · intro h0
    rw [h0]
    ring

theorem claim_C7_witness :
    ∃ v, (extract_depth [[[(1 : ℚ), 1, 1], [0, 0, 0], [1, 1, 1]]]
        [[[(1 : ℚ), 1, 1], [2, 2, 2], [3, 3, 3]]] true).vis = some v ∧
      ∀ i j, i < 1 → j < 3 →
        (0 ≤ chVal v i j ∧ chVal v i j ≤ 255) ∧
        (chVal (channelOf [[[(1 : ℚ), 1, 1], [0, 0, 0], [1, 1, 1]]] 0) i j = 0 →
          chVal v i j = 0) :=
  claim_C7 [[[(1 : ℚ), 1, 1], [0, 0, 0], [1, 1, 1]]]
    [[[(1 : ℚ), 1, 1], [2, 2, 2], [3, 3, 3]]] 1 3 3 2 1
    (by decide) (by decide) (by decide) (by decide) (by decide)
    (by decide) (by decide) (by decide) (by decide)

lemma channelOf_shape (a : Raster3) (h w k0 : ℕ) (hs : rShape a h w k0)
    (kk : ℕ) : chShape (channelOf a kk) h w := by
  constructor
  · simp [channelOf, hs.1]
  · intro row hrow
    rcases List.mem_map.1 hrow with ⟨r, hr, rfl⟩
    simp [(hs.2 r hr).1]

lemma channelOf_chVal (a : Raster3) (h w k0 : ℕ) (hs : rShape a h w k0)
    (kk i j : ℕ) (hi : i < h) (hj : j < w) :
    chVal (channelOf a kk) i j = rVal a i j kk := by
  unfold chVal channelOf rVal
  rw [getD_map_lt _ _ _ _ [] (hs.1 ▸ hi)]
  have hrow := hs.2 (a.getD i []) (getD_mem_of_lt a i [] (hs.1 ▸ hi))
  rw [getD_map_lt _ _ _ _ [] (hrow.1 ▸ hj)]

lemma channelOf_eq_of_pointwise (a : Raster3) (h w k0 : ℕ) (hs : rShape a h w k0)
    (k1 k2 : ℕ) (hpt : ∀ i j, i < h → j < w → rVal a i j k1 = rVal a i j k2) :
    channelOf a k1 = channelOf a k2 := by
  apply List.ext_getElem
  · simp [channelOf]
  · intro i hi1 hi2
    simp only [channelOf, List.getElem_map]
    apply List.ext_getElem
    · simp
    · intro j hj1 hj2
      simp only [List.getElem_map]
      have hia : i < a.length := by simpa [channelOf] using hi1
      have hja : j < (a[i]).length := by simpa using hj1
      have hiw : i < h := hs.1 ▸ hia
      have hjw : j < w := (hs.2 (a[i]) (List.getElem_mem hia)).1 ▸ hja
      have hval := hpt i j hiw hjw
      unfold rVal at hval
      rw [List.getD_eq_getElem a [] hia, List.getD_eq_getElem _ [] hja] at hval
      exact hval

lemma tripleIdent_iff (a : Raster3) (h w : ℕ) (hs : rShape a h w 3) :
    (channelOf a 0 = channelOf a 1 ∧ channelOf a 1 = channelOf a 2) ↔
      ∀ i j, i < h → j < w →
        rVal a i j 0 = rVal a i j 1 ∧ rVal a i j 1 = rVal a i j 2 := by
  constructor
  · intro he i j hi hj
    constructor
    · rw [← channelOf_chVal a h w 3 hs 0 i j hi hj,
        ← channelOf_chVal a h w 3 hs 1 i j hi hj, he.1]
    · rw [← channelOf_chVal a h w 3 hs 1 i j hi hj,
        ← channelOf_chVal a h w 3 hs 2 i j hi hj, he.2]
  · intro hp
    exact ⟨channelOf_eq_of_pointwise a h w 3 hs 0 1 (fun i j hi hj => (hp i j hi hj).1),
      channelOf_eq_of_pointwise a h w 3 hs 1 2 (fun i j hi hj => (hp i j hi hj).2)⟩

/-- Claim C9: extract_depth fails with one of its channel-identity
assertions exactly when the three alpha channels or the three depth
channels are not pixel-identical, and on such a failure nothing is
saved and no visualization is produced. -/
theorem claim_C9 (alpha_arr depth_arr : Raster3) (vr : Bool) (h w : ℕ)
    (hsa : rShape alpha_arr h w 3) (hsd : rShape depth_arr h w 3) :
    (((extract_depth alpha_arr depth_arr vr).failed =
          some DepthFailure.alphaMismatch ∨
        (extract_depth alpha_arr depth_arr vr).failed =
          some DepthFailure.depthMismatch) ↔
      ¬ ((∀ i j, i < h → j < w →
            rVal alpha_arr i j 0 = rVal alpha_arr i j 1 ∧
              rVal alpha_arr i j 1 = rVal alpha_arr i j 2) ∧
          (∀ i j, i < h → j < w →
            rVal depth_arr i j 0 = rVal depth_arr i j 1 ∧
              rVal depth_arr i j 1 = rVal depth_arr i j 2))) ∧
    (((extract_depth alpha_arr depth_arr vr).failed =
          some DepthFailure.alphaMismatch ∨
        (extract_depth alpha_arr depth_arr vr).failed =
          some DepthFailure.depthMismatch) →
      (extract_depth alpha_arr depth_arr vr).saved = none ∧
        (extract_depth alpha_arr depth_arr vr).vis = none) := by
  by_cases hA : channelOf alpha_arr 0 = channelOf alpha_arr 1 ∧
      channelOf alpha_arr 1 = channelOf alpha_arr 2
  · by_cases hD : channelOf depth_arr 0 = channelOf depth_arr 1 ∧
        channelOf depth_arr 1 = channelOf depth_arr 2
    · have hok := (extract_depth_pass alpha_arr depth_arr vr hA hD).2
      have hnm : ¬ ((extract_depth alpha_arr depth_arr vr).failed =
            some DepthFailure.alphaMismatch ∨
          (extract_depth alpha_arr depth_arr vr).failed =
            some DepthFailure.depthMismatch) := by
        rcases hok with hok | hok <;> rw [hok] <;> simp
      constructor
      · constructor
        · intro hm
          exact absurd hm hnm
        · intro hni
          exact absurd ⟨(tripleIdent_iff alpha_arr h w hsa).1 hA,
            (tripleIdent_iff depth_arr h w hsd).1 hD⟩ hni
      · intro hm
        exact absurd hm hnm
    · have hrec : extract_depth alpha_arr depth_arr vr =
          { saved := none, vis := none,
            failed := some DepthFailure.depthMismatch } := by
        unfold extract_depth
        rw [if_pos hA, if_neg hD]
      constructor
      · constructor
        · intro _ hcontra
          exact hD ((tripleIdent_iff depth_arr h w hsd).2 hcontra.2)
        · intro _
          right
          rw [hrec]
      · intro _
        rw [hrec]
        exact ⟨rfl, rfl⟩
  · have hrec : extract_depth alpha_arr depth_arr vr =
        { saved := none, vis := none,
          failed := some DepthFailure.alphaMismatch } := by
      unfold extract_depth
      rw [if_neg hA]
    constructor
    · constructor
      · intro _ hcontra
        exact hA ((tripleIdent_iff alpha_arr h w hsa).2 hcontra.1)
      · intro _
        left
        rw [hrec]
    · intro _
      rw [hrec]
      exact ⟨rfl, rfl⟩

theorem claim_C9_witness :
    (((extract_depth [[[(0 : ℚ), 0, 0]]] [[[(5 : ℚ), 5, 5]]] false).failed =
          some DepthFailure.alphaMismatch ∨
        (extract_depth [[[(0 : ℚ), 0, 0]]] [[[(5 : ℚ), 5, 5]]] false).failed =
          some DepthFailure.depthMismatch) ↔
      ¬ ((∀ i j, i < 1 → j < 1 →
            rVal [[[(0 : ℚ), 0, 0]]] i j 0 = rVal [[[(0 : ℚ), 0, 0]]] i j 1 ∧
              rVal [[[(0 : ℚ), 0, 0]]] i j 1 = rVal [[[(0 : ℚ), 0, 0]]] i j 2) ∧
          (∀ i j, i < 1 → j < 1 →
            rVal [[[(5 : ℚ), 5, 5]]] i j 0 = rVal [[[(5 : ℚ), 5, 5]]] i j 1 ∧
              rVal [[[(5 : ℚ), 5, 5]]] i j 1 = rVal [[[(5 : ℚ), 5, 5]]] i j 2))) ∧
    (((extract_depth [[[(0 : ℚ), 0, 0]]] [[[(5 : ℚ), 5, 5]]] false).failed =
          some DepthFailure.alphaMismatch ∨
        (extract_depth [[[(0 : ℚ), 0, 0]]] [[[(5 : ℚ), 5, 5]]] false).failed =
          some DepthFailure.depthMismatch) →
      (extract_depth [[[(0 : ℚ), 0, 0]]] [[[(5 : ℚ), 5, 5]]] false).saved = none ∧
        (extract_depth [[[(0 : ℚ), 0, 0]]] [[[(5 : ℚ), 5, 5]]] false).vis = none) :=
  claim_C9 [[[(0 : ℚ), 0, 0]]] [[[(5 : ℚ), 5, 5]]] false 1 1 (by decide) (by decide)

lemma rVal_dstackWith (a : Raster3) (c : Channel) (h w k0 : ℕ)
    (hs : rShape a h w k0) (hc : chShape c h w) (i j : ℕ)
    (hi : i < h) (hj : j < w) :
    (∀ k, k < k0 → rVal (dstackWith a c) i j k = rVal a i j k) ∧
      rVal (dstackWith a c) i j k0 = chVal c i j := by
  have hrowa := hs.2 (a.getD i []) (getD_mem_of_lt a i [] (hs.1 ▸ hi))
  have hrowc : (c.getD i []).length = w := chShape_row c h w hc i hi
  have hpx : ((a.getD i []).getD j []).length = k0 :=
    hrowa.2 _ (getD_mem_of_lt _ j [] (hrowa.1 ▸ hj))
  constructor
  · intro k hk
    unfold rVal dstackWith
    rw [getD_zipWith_lt _ _ _ _ _ [] [] (hs.1 ▸ hi) (hc.1 ▸ hi),
      getD_zipWith_lt _ _ _ _ _ [] 0 (hrowa.1 ▸ hj) (hrowc ▸ hj),
      List.getD_append _ _ _ _ (by rw [hpx]; exact hk)]
  · unfold rVal dstackWith chVal
    rw [getD_zipWith_lt _ _ _ _ _ [] [] (hs.1 ▸ hi) (hc.1 ▸ hi),
      getD_zipWith_lt _ _ _ _ _ [] 0 (hrowa.1 ▸ hj) (hrowc ▸ hj)]
    have hcc := getD_concat_self ((a.getD i []).getD j [])
      ((c.getD i []).getD j 0) (0 : ℚ)
    rw [hpx] at hcc
    exact hcc

/-- Claim C10: on inputs passing the channel assertions, the saved array
is np.dstack((arr, alpha)) built from the raw depth raster, it is the
same whether or not vis_raw is requested, and pixelwise it holds the
unmodified depth channel values followed by the alpha value: capping and
rescaling touch only the visualization. -/
theorem claim_C10 (alpha_arr depth_arr : Raster3) (h w : ℕ)
    (hA : channelOf alpha_arr 0 = channelOf alpha_arr 1 ∧
      channelOf alpha_arr 1 = channelOf alpha_arr 2)
    (hD : channelOf depth_arr 0 = channelOf depth_arr 1 ∧
      channelOf depth_arr 1 = channelOf depth_arr 2)
    (hsa : rShape alpha_arr h w 3) (hsd : rShape depth_arr h w 3) :
    (extract_depth alpha_arr depth_arr true).saved =
        some (dstackWith depth_arr (channelOf alpha_arr 0)) ∧
    (extract_depth alpha_arr depth_arr false).saved =
        some (dstackWith depth_arr (channelOf alpha_arr 0)) ∧
    ∀ i j, i < h → j < w →
      (∀ k, k < 3 → rVal (dstackWith depth_arr (channelOf alpha_arr 0)) i j k =
        rVal depth_arr i j k) ∧
      rVal (dstackWith depth_arr (channelOf alpha_arr 0)) i j 3 =
        rVal alpha_arr i j 0 := by
  refine ⟨(extract_depth_pass alpha_arr depth_arr true hA hD).1,
    (extract_depth_pass alpha_arr depth_arr false hA hD).1, ?_⟩
  intro i j hi hj
  have hd := rVal_dstackWith depth_arr (channelOf alpha_arr 0) h w 3 hsd
    (channelOf_shape alpha_arr h w 3 hsa 0) i j hi hj
  refine ⟨hd.1, ?_⟩
  rw [hd.2]
  exact channelOf_chVal alpha_arr h w 3 hsa 0 i j hi hj

theorem claim_C10_witness :
    (extract_depth [[[(0 : ℚ), 0, 0]]] [[[(7 : ℚ), 7, 7]]] true).saved =
        some (dstackWith [[[(7 : ℚ), 7, 7]]] (channelOf [[[(0 : ℚ), 0, 0]]] 0)) ∧
    (extract_depth [[[(0 : ℚ), 0, 0]]] [[[(7 : ℚ), 7, 7]]] false).saved =
        some (dstackWith [[[(7 : ℚ), 7, 7]]] (channelOf [[[(0 : ℚ), 0, 0]]] 0)) ∧
    ∀ i j, i < 1 → j < 1 →
      (∀ k, k < 3 →
        rVal (dstackWith [[[(7 : ℚ), 7, 7]]] (channelOf [[[(0 : ℚ), 0, 0]]] 0)) i j k =
          rVal [[[(7 : ℚ), 7, 7]]] i j k) ∧
      rVal (dstackWith [[[(7 : ℚ), 7, 7]]] (channelOf [[[(0 : ℚ), 0, 0]]] 0)) i j 3 =
        rVal [[[(0 : ℚ), 0, 0]]] i j 0 :=
  claim_C10 [[[(0 : ℚ), 0, 0]]] [[[(7 : ℚ), 7, 7]]] 1 1
    (by decide) (by decide) (by decide) (by decide)

/-- Claim C2 counterexample: the depth raster [[1, 2]] has its background
pixel at the global maximum 2 and one foreground pixel of value 1, so it
satisfies the stated hypotheses; but the foreground maximum equals the
foreground minimum, the rescale divides by zero, and the produced image
is [[0, 0]]: the foreground minimum maps to 0, not to the maximum byte
value 255 required by the claim. -/
theorem claim_C2_counterexample :
    visRawDepth [[(1 : ℚ), 2]] = some [[0, 0]] ∧ chVal [[(0 : ℚ), 0]] 0 0 ≠ 255 := by
  constructor
  · norm_num [visRawDepth, npMax, npMin, capBackground, rescaleDepth, mapPix,
      dtype_max, List.filter, List.foldl]
  · decide

/-! ## EXR.extract_intrinsic_images_from_lighting_passes -/

/-- Elementwise sum of two channels. -/
def channelAdd (a b : Channel) : Channel := zipPix (fun x y => x + y) a b

/-- np.sum(comp_arrs, axis=0) over a list of equally shaped channels. -/
def sumChannels : List Channel → Channel
  | [] => []
  | c :: cs => cs.foldl channelAdd c

/-- One channel viewed as an h x w x 1 raster. -/
def stackOne (c : Channel) : Raster3 :=
  c.map (fun row => row.map (fun x => [x]))

/-- np.dstack of a list of equally shaped channels. -/
def dstackL : List Channel → Raster3
  | [] => []
  | c :: cs => cs.foldl dstackWith (stackOne c)

/-- The collapse_passes closure: sum the R, G and B sub-channels of the
named components, assert all alpha sub-channels equal the first one
(none models the assertion failure, and the IndexError on an empty
component list), and dstack the three sums with the shared alpha. -/
def collapse_passes (data : String → Channel) : List String → Option Raster3
  | [] => none
  | c0 :: rest =>
    let ch_arrays := ["R", "G", "B"].map (fun ch =>
      sumChannels ((c0 :: rest).map (fun comp => data (comp ++ "." ++ ch))))
    let first_alpha := data (c0 ++ ".A")
    if rest.all (fun c => first_alpha == data (c ++ ".A")) then
      some (dstackL (ch_arrays ++ [first_alpha]))
    else none

/-- Elementwise combination of two 3-D rasters. -/
def zipRas (f : ℚ → ℚ → ℚ) (a b : Raster3) : Raster3 :=
  List.zipWith (List.zipWith (List.zipWith f)) a b

/-- recon[:, :, 3] = albedo[:, :, 3]. -/
def setAlphaFrom (recon albedo : Raster3) : Raster3 :=
  List.zipWith (List.zipWith (fun px apx => px.set 3 (apx.getD 3 0))) recon albedo

/-- EXR.extract_intrinsic_images_from_lighting_passes: collapse albedo,
shading and specularity from their lighting passes, reconstruct as
albedo * shading + specularity with the alpha channel overwritten from
albedo, and collapse the composite pass for reference. -/
def extract_intrinsic_images_from_lighting_passes (data : String → Channel) :
    Option (Raster3 × Raster3 × Raster3 × Raster3 × Raster3) :=
  (collapse_passes data ["diffuse_color", "glossy_color"]).bind (fun albedo =>
    (collapse_passes data ["diffuse_indirect", "diffuse_direct"]).bind (fun shading =>
      (collapse_passes data ["glossy_indirect", "glossy_direct"]).bind
        (fun specularity =>
          let recon := setAlphaFrom
            (zipRas (fun x y => x + y) (zipRas (fun x y => x * y) albedo shading)
              specularity) albedo
          (collapse_passes data ["composite"]).bind (fun composite =>
            some (albedo, shading, specularity, recon, composite)))))

lemma foldl_channelAdd_spec (cs : List Channel) : ∀ c : Channel,
    chShape c h w → (∀ x ∈ cs, chShape x h w) →
    chShape (cs.foldl channelAdd c) h w ∧
      ∀ i j, i < h → j < w → chVal (cs.foldl channelAdd c) i j =
        chVal c i j + (cs.map (fun x => chVal x i j)).sum := by
  induction cs with
  | nil => intro c hc _; exact ⟨hc, fun i j _ _ => by simp⟩
  | cons d ds ih =>
    intro c hc hall
    have hd := hall d (List.mem_cons_self d ds)
    have hadd : chShape (channelAdd c d) h w := zipPix_shape _ _ _ _ _ hc hd
    rcases ih (channelAdd c d) hadd
      (fun x hx => hall x (List.mem_cons_of_mem d hx)) with ⟨hsh, hval⟩
    refine ⟨hsh, ?_⟩
    intro i j hi hj
    rw [List.foldl_cons, hval i j hi hj]
    unfold channelAdd
    rw [chVal_zipPix _ _ _ _ _ hc hd i j hi hj]
    simp only [List.map_cons, List.sum_cons]
    ring

lemma sumChannels_spec (c : Channel) (cs : List Channel) (h w : ℕ)
    (hc : chShape c h w) (hall : ∀ x ∈ cs, chShape x h w) :
    chShape (sumChannels (c :: cs)) h w ∧
      ∀ i j, i < h → j < w → chVal (sumChannels (c :: cs)) i j =
        ((c :: cs).map (fun x => chVal x i j)).sum := by
  rcases foldl_channelAdd_spec cs c hc hall with ⟨hsh, hval⟩
  refine ⟨hsh, ?_⟩
  intro i j hi hj
  rw [show sumChannels (c :: cs) = cs.foldl channelAdd c from rfl,
    hval i j hi hj]
  simp

lemma stackOne_shape (c : Channel) (h w : ℕ) (hc : chShape c h w) :
    rShape (stackOne c) h w 1 := by
  constructor
  · simp [stackOne, hc.1]
  · intro row hrow
    rcases List.mem_map.1 hrow with ⟨r, hr, rfl⟩
    constructor
    · simp [hc.2 r hr]
    · intro px hpx
      rcases List.mem_map.1 hpx with ⟨x, hx, rfl⟩
      rfl

lemma rVal_stackOne (c : Channel) (h w : ℕ) (hc : chShape c h w) (i j : ℕ)
    (hi : i < h) (hj : j < w) : rVal (stackOne c) i j 0 = chVal c i j := by
  unfold rVal stackOne chVal
  rw [getD_map_lt _ _ _ _ [] (hc.1 ▸ hi),
    getD_map_lt _ _ _ _ 0 ((chShape_row c h w hc i hi) ▸ hj)]
  rfl

lemma dstackWith_shape (a : Raster3) (c : Channel) (h w k0 : ℕ)
    (hs : rShape a h w k0) (hc : chShape c h w) :
    rShape (dstackWith a c) h w (k0 + 1) := by
  constructor
  · simp [dstackWith, hs.1, hc.1]
  · intro row hrow
    rcases mem_zipWith hrow with ⟨ra, hra, rc, hrc, rfl⟩
    constructor
    · simp [List.length_zipWith, (hs.2 ra hra).1, hc.2 rc hrc]
    · intro px hpx
      rcases mem_zipWith hpx with ⟨pa, hpa, v, hv, rfl⟩
      simp [(hs.2 ra hra).2 pa hpa]

lemma dstack4_spec (c1 c2 c3 c4 : Channel) (h w : ℕ)
    (h1 : chShape c1 h w) (h2 : chShape c2 h w) (h3 : chShape c3 h w)
    (h4 : chShape c4 h w) :
    rShape (dstackL [c1, c2, c3, c4]) h w 4 ∧
      ∀ i j, i < h → j < w →
        rVal (dstackL [c1, c2, c3, c4]) i j 0 = chVal c1 i j ∧
        rVal (dstackL [c1, c2, c3, c4]) i j 1 = chVal c2 i j ∧
        rVal (dstackL [c1, c2, c3, c4]) i j 2 = chVal c3 i j ∧
        rVal (dstackL [c1, c2, c3, c4]) i j 3 = chVal c4 i j := by
  have e : dstackL [c1, c2, c3, c4] =
      dstackWith (dstackWith (dstackWith (stackOne c1) c2) c3) c4 := rfl
  have s1 : rShape (stackOne c1) h w 1 := stackOne_shape c1 h w h1
  have s2 : rShape (dstackWith (stackOne c1) c2) h w 2 :=
    dstackWith_shape _ c2 h w 1 s1 h2
  have s3 : rShape (dstackWith (dstackWith (stackOne c1) c2) c3) h w 3 :=
    dstackWith_shape _ c3 h w 2 s2 h3
  have s4 : rShape (dstackL [c1, c2, c3, c4]) h w 4 := by
    rw [e]
    exact dstackWith_shape _ c4 h w 3 s3 h4
  refine ⟨s4, ?_⟩
  intro i j hi hj
  have t4 := rVal_dstackWith _ c4 h w 3 s3 h4 i j hi hj
  have t3 := rVal_dstackWith _ c3 h w 2 s2 h3 i j hi hj
  have t2 := rVal_dstackWith _ c2 h w 1 s1 h2 i j hi hj
  have t1 := rVal_stackOne c1 h w h1 i j hi hj
  rw [e]
  refine ⟨?_, ?_, ?_, ?_⟩
  · rw [t4.1 0 (by norm_num), t3.1 0 (by norm_num), t2.1 0 (by norm_num), t1]
  · rw [t4.1 1 (by norm_num), t3.1 1 (by norm_num), t2.2]
  · rw [t4.1 2 (by norm_num), t3.2]
  · rw [t4.2]

lemma collapse_passes_spec (data : String → Channel) (c0 : String)
    (rest : List String) (h w : ℕ)
    (hshRGB : ∀ comp ∈ c0 :: rest, ∀ ch ∈ ["R", "G", "B"],
      chShape (data (comp ++ "." ++ ch)) h w)
    (hshA : ∀ comp ∈ c0 :: rest, chShape (data (comp ++ ".A")) h w)
    (hal : ∀ comp ∈ c0 :: rest, data (comp ++ ".A") = data (c0 ++ ".A")) :
    ∃ arr, collapse_passes data (c0 :: rest) = some arr ∧ rShape arr h w 4 ∧
      ∀ i j, i < h → j < w →
        rVal arr i j 0 =
          ((c0 :: rest).map (fun comp =>
            chVal (data (comp ++ "." ++ "R")) i j)).sum ∧
        rVal arr i j 1 =
          ((c0 :: rest).map (fun comp =>
            chVal (data (comp ++ "." ++ "G")) i j)).sum ∧
        rVal arr i j 2 =
          ((c0 :: rest).map (fun comp =>
            chVal (data (comp ++ "." ++ "B")) i j)).sum ∧
        rVal arr i j 3 = chVal (data (c0 ++ ".A")) i j := by
  have hb : (rest.all (fun c => data (c0 ++ ".A") == data (c ++ ".A"))) = true := by
    rw [List.all_eq_true]
    intro c hc
    have he := hal c (List.mem_cons_of_mem c0 hc)
    simp only [he]
    exact beq_self_eq_true _
  have hsum : ∀ ch ∈ ["R", "G", "B"],
      chShape (sumChannels ((c0 :: rest).map
        (fun comp => data (comp ++ "." ++ ch)))) h w ∧
      ∀ i j, i < h → j < w →
        chVal (sumChannels ((c0 :: rest).map
          (fun comp => data (comp ++ "." ++ ch)))) i j =
        ((c0 :: rest).map (fun comp => chVal (data (comp ++ "." ++ ch)) i j)).sum := by
    intro ch hch
    rw [List.map_cons]
    have hspec := sumChannels_spec (data (c0 ++ "." ++ ch))
      (rest.map (fun comp => data (comp ++ "." ++ ch))) h w
      (hshRGB c0 (List.mem_cons_self c0 rest) ch hch)
      (fun x hx => by
        rcases List.mem_map.1 hx with ⟨comp, hcomp, rfl⟩
        exact hshRGB comp (List.mem_cons_of_mem c0 hcomp) ch hch)
    rcases hspec with ⟨hsh1, hval1⟩
    refine ⟨hsh1, ?_⟩
    intro i j hi hj
    rw [hval1 i j hi hj]
    simp only [List.map_cons, List.map_map, List.sum_cons]
    rfl
  have hR := hsum "R" (by simp)
  have hG := hsum "G" (by simp)
  have hB := hsum "B" (by simp)
  have hA := hshA c0 (List.mem_cons_self c0 rest)
  have hcol : collapse_passes data (c0 :: rest) = some (dstackL
      ([sumChannels ((c0 :: rest).map (fun comp => data (comp ++ "." ++ "R"))),
        sumChannels ((c0 :: rest).map (fun comp => data (comp ++ "." ++ "G"))),
        sumChannels ((c0 :: rest).map (fun comp => data (comp ++ "." ++ "B")))] ++
        [data (c0 ++ ".A")])) := by
    simp only [collapse_passes, List.map_cons, List.map_nil]
    rw [hb]
    simp
  rcases dstack4_spec _ _ _ _ h w hR.1 hG.1 hB.1 hA with ⟨hsh4, hval4⟩
  refine ⟨_, hcol, ?_, ?_⟩
  · simpa using hsh4
  · intro i j hi hj
    rcases hval4 i j hi hj with ⟨v0, v1, v2, v3⟩
    refine ⟨?_, ?_, ?_, ?_⟩
    · rw [show ([sumChannels ((c0 :: rest).map (fun comp => data (comp ++ "." ++ "R"))),
        sumChannels ((c0 :: rest).map (fun comp => data (comp ++ "." ++ "G"))),
        sumChannels ((c0 :: rest).map (fun comp => data (comp ++ "." ++ "B")))] ++
        [data (c0 ++ ".A")]) = [sumChannels ((c0 :: rest).map (fun comp => data (comp ++ "." ++ "R"))),
        sumChannels ((c0 :: rest).map (fun comp => data (comp ++ "." ++ "G"))),
        sumChannels ((c0 :: rest).map (fun comp => data (comp ++ "." ++ "B"))),
        data (c0 ++ ".A")] from rfl, v0]
      exact hR.2 i j hi hj
    · rw [show ([sumChannels ((c0 :: rest).map (fun comp => data (comp ++ "." ++ "R"))),
        sumChannels ((c0 :: rest).map (fun comp => data (comp ++ "." ++ "G"))),
        sumChannels ((c0 :: rest).map (fun comp => data (comp ++ "." ++ "B")))] ++
        [data (c0 ++ ".A")]) = [sumChannels ((c0 :: rest).map (fun comp => data (comp ++ "." ++ "R"))),
        sumChannels ((c0 :: rest).map (fun comp => data (comp ++ "." ++ "G"))),
        sumChannels ((c0 :: rest).map (fun comp => data (comp ++ "." ++ "B"))),
        data (c0 ++ ".A")] from rfl, v1]
      exact hG.2 i j hi hj
    · rw [show ([sumChannels ((c0 :: rest).map (fun comp => data (comp ++ "." ++ "R"))),
        sumChannels ((c0 :: rest).map (fun comp => data (comp ++ "." ++ "G"))),
        sumChannels ((c0 :: rest).map (fun comp => data (comp ++ "." ++ "B")))] ++
        [data (c0 ++ ".A")]) = [sumChannels ((c0 :: rest).map (fun comp => data (comp ++ "." ++ "R"))),
        sumChannels ((c0 :: rest).map (fun comp => data (comp ++ "." ++ "G"))),
        sumChannels ((c0 :: rest).map (fun comp => data (comp ++ "." ++ "B"))),
        data (c0 ++ ".A")] from rfl, v2]
      exact hB.2 i j hi hj
    · rw [show ([sumChannels ((c0 :: rest).map (fun comp => data (comp ++ "." ++ "R"))),
        sumChannels ((c0 :: rest).map (fun comp => data (comp ++ "." ++ "G"))),
        sumChannels ((c0 :: rest).map (fun comp => data (comp ++ "." ++ "B")))] ++
        [data (c0 ++ ".A")]) = [sumChannels ((c0 :: rest).map (fun comp => data (comp ++ "." ++ "R"))),
        sumChannels ((c0 :: rest).map (fun comp => data (comp ++ "." ++ "G"))),
        sumChannels ((c0 :: rest).map (fun comp => data (comp ++ "." ++ "B"))),
        data (c0 ++ ".A")] from rfl, v3]

/-- Claim C3: collapse_passes, on a component list whose R, G, B and
alpha sub-channels all share one spatial shape and whose alpha
sub-channels are pairwise identical, returns an h x w x 4 raster whose
first three channels are the elementwise sums of the component R, G and
B sub-channels, in that order, and whose fourth channel is the shared
alpha sub-channel. -/
theorem claim_C3 (data : String → Channel) (c0 : String) (rest : List String)
    (h w : ℕ)
    (hshRGB : ∀ comp ∈ c0 :: rest, ∀ ch ∈ ["R", "G", "B"],
      chShape (data (comp ++ "." ++ ch)) h w)
    (hshA : ∀ comp ∈ c0 :: rest, chShape (data (comp ++ ".A")) h w)
    (hal : ∀ comp ∈ c0 :: rest, data (comp ++ ".A") = data (c0 ++ ".A")) :
    ∃ arr, collapse_passes data (c0 :: rest) = some arr ∧ rShape arr h w 4 ∧
      ∀ i j, i < h → j < w →
        rVal arr i j 0 =
          ((c0 :: rest).map (fun comp =>
            chVal (data (comp ++ "." ++ "R")) i j)).sum ∧
        rVal arr i j 1 =
          ((c0 :: rest).map (fun comp =>
            chVal (data (comp ++ "." ++ "G")) i j)).sum ∧
        rVal arr i j 2 =
          ((c0 :: rest).map (fun comp =>
            chVal (data (comp ++ "." ++ "B")) i j)).sum ∧
        rVal arr i j 3 = chVal (data (c0 ++ ".A")) i j :=
  collapse_passes_spec data c0 rest h w hshRGB hshA hal

theorem claim_C3_witness :
    ∃ arr, collapse_passes (fun _ => [[(1 : ℚ)]]) ["p", "q"] = some arr ∧
      rShape arr 1 1 4 ∧
      ∀ i j, i < 1 → j < 1 →
        rVal arr i j 0 =
          ((["p", "q"] : List String).map (fun comp =>
            chVal ((fun _ => [[(1 : ℚ)]]) (comp ++ "." ++ "R")) i j)).sum ∧
        rVal arr i j 1 =
          ((["p", "q"] : List String).map (fun comp =>
            chVal ((fun _ => [[(1 : ℚ)]]) (comp ++ "." ++ "G")) i j)).sum ∧
        rVal arr i j 2 =
          ((["p", "q"] : List String).map (fun comp =>
            chVal ((fun _ => [[(1 : ℚ)]]) (comp ++ "." ++ "B")) i j)).sum ∧
        rVal arr i j 3 = chVal ((fun _ => [[(1 : ℚ)]]) ("p" ++ ".A")) i j :=
  claim_C3 (fun _ => [[(1 : ℚ)]]) "p" ["q"] 1 1 (by decide) (by decide) (by decide)

/-- Claim C5: whenever two of the named components have alpha
sub-channels that differ at some pixel, collapse_passes hits its alpha
assertion and returns no result at all. -/
theorem claim_C5 (data : String → Channel) (components : List String)
    (c1 c2 : String) (hc1 : c1 ∈ components) (hc2 : c2 ∈ components)
    (i j : ℕ)
    (hne : chVal (data (c1 ++ ".A")) i j ≠ chVal (data (c2 ++ ".A")) i j) :
    collapse_passes data components = none := by
  cases components with
  | nil => rfl
  | cons c0 rest =>
    by_cases hb : (rest.all (fun c => data (c0 ++ ".A") == data (c ++ ".A"))) = true
    · exfalso
      have hall : ∀ c ∈ c0 :: rest, data (c ++ ".A") = data (c0 ++ ".A") := by
        intro c hc
        rcases List.mem_cons.1 hc with rfl | hc
        · rfl
        · exact (beq_iff_eq.1 (List.all_eq_true.1 hb c hc)).symm
      exact hne (by rw [hall c1 hc1, hall c2 hc2])
    · have hb2 : (rest.all (fun c => data (c0 ++ ".A") == data (c ++ ".A"))) = false := by
        cases hx : (rest.all (fun c => data (c0 ++ ".A") == data (c ++ ".A")))
        · rfl
        · exact absurd hx hb
      simp only [collapse_passes, List.map_cons, List.map_nil]
      rw [hb2]
      simp

theorem claim_C5_witness :
    collapse_passes
      (fun s => if s == "p.A" then [[(0 : ℚ)]] else [[(1 : ℚ)]])
      ["p", "q"] = none :=
  claim_C5 (fun s => if s == "p.A" then [[(0 : ℚ)]] else [[(1 : ℚ)]])
    ["p", "q"] "p" "q" (by decide) (by decide) 0 0 (by decide)

lemma zipRas_shape (f : ℚ → ℚ → ℚ) (a b : Raster3) (h w k0 : ℕ)
    (ha : rShape a h w k0) (hb : rShape b h w k0) :
    rShape (zipRas f a b) h w k0 := by
  constructor
  · simp [zipRas, ha.1, hb.1]
  · intro row hrow
    rcases mem_zipWith hrow with ⟨ra, hra, rb, hrb, rfl⟩
    constructor
    · simp [List.length_zipWith, (ha.2 ra hra).1, (hb.2 rb hrb).1]
    · intro px hpx
      rcases mem_zipWith hpx with ⟨pa, hpa, pb, hpb, rfl⟩
      simp [List.length_zipWith, (ha.2 ra hra).2 pa hpa, (hb.2 rb hrb).2 pb hpb]

lemma rVal_zipRas (f : ℚ → ℚ → ℚ) (a b : Raster3) (h w k0 : ℕ)
    (ha : rShape a h w k0) (hb : rShape b h w k0) (i j k : ℕ)
    (hi : i < h) (hj : j < w) (hk : k < k0) :
    rVal (zipRas f a b) i j k = f (rVal a i j k) (rVal b i j k) := by
  have hrowa := ha.2 (a.getD i []) (getD_mem_of_lt a i [] (ha.1 ▸ hi))
  have hrowb := hb.2 (b.getD i []) (getD_mem_of_lt b i [] (hb.1 ▸ hi))
  have hpxa : ((a.getD i []).getD j []).length = k0 :=
    hrowa.2 _ (getD_mem_of_lt _ j [] (hrowa.1 ▸ hj))
  have hpxb : ((b.getD i []).getD j []).length = k0 :=
    hrowb.2 _ (getD_mem_of_lt _ j [] (hrowb.1 ▸ hj))
  unfold rVal zipRas
  rw [getD_zipWith_lt _ _ _ _ _ [] [] (ha.1 ▸ hi) (hb.1 ▸ hi),
    getD_zipWith_lt _ _ _ _ _ [] [] (hrowa.1 ▸ hj) (hrowb.1 ▸ hj),
    getD_zipWith_lt _ _ _ _ _ 0 0 (by rw [hpxa]; exact hk) (by rw [hpxb]; exact hk)]

lemma list_len4 (px : List ℚ) (hl : px.length = 4) :
    ∃ a b c d, px = [a, b, c, d] := by
  rcases px with _ | ⟨a, px⟩
  · simp at hl
  rcases px with _ | ⟨b, px⟩
  · simp at hl
  rcases px with _ | ⟨c, px⟩
  · simp at hl
  rcases px with _ | ⟨d, px⟩
  · simp at hl
  rcases px with _ | ⟨e, px⟩
  · exact ⟨a, b, c, d, rfl⟩
  · simp at hl

lemma setAlphaFrom_spec (r al : Raster3) (h w : ℕ) (hr : rShape r h w 4)
    (hal : rShape al h w 4) (i j : ℕ) (hi : i < h) (hj : j < w) :
    (∀ k, k < 3 → rVal (setAlphaFrom r al) i j k = rVal r i j k) ∧
      rVal (setAlphaFrom r al) i j 3 = rVal al i j 3 := by
  have hrowr := hr.2 (r.getD i []) (getD_mem_of_lt r i [] (hr.1 ▸ hi))
  have hrowa := hal.2 (al.getD i []) (getD_mem_of_lt al i [] (hal.1 ▸ hi))
  have hpxr : ((r.getD i []).getD j []).length = 4 :=
    hrowr.2 _ (getD_mem_of_lt _ j [] (hrowr.1 ▸ hj))
  have hpxa : ((al.getD i []).getD j []).length = 4 :=
    hrowa.2 _ (getD_mem_of_lt _ j [] (hrowa.1 ▸ hj))
  rcases list_len4 _ hpxr with ⟨x0, x1, x2, x3, hx⟩
  rcases list_len4 _ hpxa with ⟨y0, y1, y2, y3, hy⟩
  have base : ∀ k : ℕ, rVal (setAlphaFrom r al) i j k =
      ([x0, x1, x2, y3] : List ℚ).getD k 0 := by
    intro k
    unfold rVal setAlphaFrom
    rw [getD_zipWith_lt _ _ _ _ _ [] [] (hr.1 ▸ hi) (hal.1 ▸ hi),
      getD_zipWith_lt _ _ _ _ _ [] [] (hrowr.1 ▸ hj) (hrowa.1 ▸ hj), hx, hy]
    rfl
  constructor
  · intro k hk
    rw [base k]
    unfold rVal
    rw [hx]
    interval_cases k <;> rfl
  · rw [base 3]
    unfold rVal
    rw [hy]
    rfl

/-- A constant h x w channel. -/
def constImg (h w : ℕ) (v : ℚ) : Channel :=
  List.replicate h (List.replicate w v)

lemma constImg_shape (h w : ℕ) (v : ℚ) : chShape (constImg h w v) h w := by
  constructor
  · simp [constImg]
  · intro row hrow
    rw [List.eq_of_mem_replicate hrow]
    simp

lemma chVal_constImg (h w : ℕ) (v : ℚ) (i j : ℕ) (hi : i < h) (hj : j < w) :
    chVal (constImg h w v) i j = v := by
  unfold chVal constImg
  rw [List.getD_eq_getElem _ [] (by simpa using hi), List.getElem_replicate,
    List.getD_eq_getElem _ 0 (by simpa using hj), List.getElem_replicate]

/-- The seven lighting-pass names used by
extract_intrinsic_images_from_lighting_passes. -/
def intrinsicPassNames : List String :=
  ["diffuse_color", "glossy_color", "diffuse_indirect", "diffuse_direct",
   "glossy_indirect", "glossy_direct", "composite"]

/-- Synthetic pass data: both color passes carry the constant c image,
all four lighting passes the constant s image, every alpha sub-channel
one shared channel A, and the composite pass the constant 0 image. -/
def synthData (h w : ℕ) (c s : ℚ) (A : Channel) : String → Channel
  | "diffuse_color.R" => constImg h w c
  | "diffuse_color.G" => constImg h w c
  | "diffuse_color.B" => constImg h w c
  | "glossy_color.R" => constImg h w c
  | "glossy_color.G" => constImg h w c
  | "glossy_color.B" => constImg h w c
  | "diffuse_direct.R" => constImg h w s
  | "diffuse_direct.G" => constImg h w s
  | "diffuse_direct.B" => constImg h w s
  | "diffuse_indirect.R" => constImg h w s
  | "diffuse_indirect.G" => constImg h w s
  | "diffuse_indirect.B" => constImg h w s
  | "glossy_direct.R" => constImg h w s
  | "glossy_direct.G" => constImg h w s
  | "glossy_direct.B" => constImg h w s
  | "glossy_indirect.R" => constImg h w s
  | "glossy_indirect.G" => constImg h w s
  | "glossy_indirect.B" => constImg h w s
  | "diffuse_color.A" => A
  | "glossy_color.A" => A
  | "diffuse_direct.A" => A
  | "diffuse_indirect.A" => A
  | "glossy_direct.A" => A
  | "glossy_indirect.A" => A
  | "composite.A" => A
  | _ => constImg h w 0

lemma synthData_shape (h w : ℕ) (c s : ℚ) (A : Channel) (hA : chShape A h w) :
    ∀ name : String, chShape (synthData h w c s A name) h w := by
  intro name
  unfold synthData
  split
  all_goals first | exact hA | exact constImg_shape h w _

lemma intrinsic_spec (data : String → Channel) (h w : ℕ)
    (hshRGB : ∀ p ∈ intrinsicPassNames, ∀ ch ∈ ["R", "G", "B"],
      chShape (data (p ++ "." ++ ch)) h w)
    (hshA : ∀ p ∈ intrinsicPassNames, chShape (data (p ++ ".A")) h w)
    (hal : ∀ p ∈ intrinsicPassNames,
      data (p ++ ".A") = data ("diffuse_color" ++ ".A")) :
    ∃ albedo shading specularity recon composite,
      extract_intrinsic_images_from_lighting_passes data =
        some (albedo, shading, specularity, recon, composite) ∧
      rShape albedo h w 4 ∧ rShape shading h w 4 ∧ rShape specularity h w 4 ∧
      ∀ i j, i < h → j < w →
        (∀ k, k < 3 → rVal recon i j k =
          rVal albedo i j k * rVal shading i j k + rVal specularity i j k) ∧
        rVal recon i j 3 = rVal albedo i j 3 ∧
        (rVal albedo i j 0 = chVal (data ("diffuse_color" ++ "." ++ "R")) i j +
            chVal (data ("glossy_color" ++ "." ++ "R")) i j ∧
          rVal albedo i j 1 = chVal (data ("diffuse_color" ++ "." ++ "G")) i j +
            chVal (data ("glossy_color" ++ "." ++ "G")) i j ∧
          rVal albedo i j 2 = chVal (data ("diffuse_color" ++ "." ++ "B")) i j +
            chVal (data ("glossy_color" ++ "." ++ "B")) i j) ∧
        rVal albedo i j 3 = chVal (data ("diffuse_color" ++ ".A")) i j ∧
        (rVal shading i j 0 = chVal (data ("diffuse_indirect" ++ "." ++ "R")) i j +
            chVal (data ("diffuse_direct" ++ "." ++ "R")) i j ∧
          rVal shading i j 1 = chVal (data ("diffuse_indirect" ++ "." ++ "G")) i j +
            chVal (data ("diffuse_direct" ++ "." ++ "G")) i j ∧
          rVal shading i j 2 = chVal (data ("diffuse_indirect" ++ "." ++ "B")) i j +
            chVal (data ("diffuse_direct" ++ "." ++ "B")) i j) ∧
        rVal shading i j 3 = chVal (data ("diffuse_indirect" ++ ".A")) i j ∧
        (rVal specularity i j 0 = chVal (data ("glossy_indirect" ++ "." ++ "R")) i j +
            chVal (data ("glossy_direct" ++ "." ++ "R")) i j ∧
          rVal specularity i j 1 = chVal (data ("glossy_indirect" ++ "." ++ "G")) i j +
            chVal (data ("glossy_direct" ++ "." ++ "G")) i j ∧
          rVal specularity i j 2 = chVal (data ("glossy_indirect" ++ "." ++ "B")) i j +
            chVal (data ("glossy_direct" ++ "." ++ "B")) i j) ∧
        rVal specularity i j 3 = chVal (data ("glossy_indirect" ++ ".A")) i j := by
  have m1 : "diffuse_color" ∈ intrinsicPassNames := by simp [intrinsicPassNames]
  have m2 : "glossy_color" ∈ intrinsicPassNames := by simp [intrinsicPassNames]
  have m3 : "diffuse_indirect" ∈ intrinsicPassNames := by simp [intrinsicPassNames]
  have m4 : "diffuse_direct" ∈ intrinsicPassNames := by simp [intrinsicPassNames]
  have m5 : "glossy_indirect" ∈ intrinsicPassNames := by simp [intrinsicPassNames]
  have m6 : "glossy_direct" ∈ intrinsicPassNames := by simp [intrinsicPassNames]
  have m7 : "composite" ∈ intrinsicPassNames := by simp [intrinsicPassNames]
  obtain ⟨albedo, heqAl, hshAl, hvalAl⟩ :=
    collapse_passes_spec data "diffuse_color" ["glossy_color"] h w
      (fun comp hcomp ch hch => by
        fin_cases hcomp
        · exact hshRGB _ m1 ch hch
        · exact hshRGB _ m2 ch hch)
      (fun comp hcomp => by
        fin_cases hcomp
        · exact hshA _ m1
        · exact hshA _ m2)
      (fun comp hcomp => by
        fin_cases hcomp
        · rfl
        · exact hal _ m2)
  obtain ⟨shading, heqSh, hshSh, hvalSh⟩ :=
    collapse_passes_spec data "diffuse_indirect" ["diffuse_direct"] h w
      (fun comp hcomp ch hch => by
        fin_cases hcomp
        · exact hshRGB _ m3 ch hch
        · exact hshRGB _ m4 ch hch)
      (fun comp hcomp => by
        fin_cases hcomp
        · exact hshA _ m3
        · exact hshA _ m4)
      (fun comp hcomp => by
        fin_cases hcomp
        · rfl
        · exact (hal _ m4).trans (hal _ m3).symm)
  obtain ⟨specularity, heqSp, hshSp, hvalSp⟩ :=
    collapse_passes_spec data "glossy_indirect" ["glossy_direct"] h w
      (fun comp hcomp ch hch => by
        fin_cases hcomp
        · exact hshRGB _ m5 ch hch
        · exact hshRGB _ m6 ch hch)
      (fun comp hcomp => by
        fin_cases hcomp
        · exact hshA _ m5
        · exact hshA _ m6)
      (fun comp hcomp => by
        fin_cases hcomp
        · rfl
        · exact (hal _ m6).trans (hal _ m5).symm)
  obtain ⟨composite, heqCo, hshCo, hvalCo⟩ :=
    collapse_passes_spec data "composite" [] h w
      (fun comp hcomp ch hch => by
        fin_cases hcomp
        exact hshRGB _ m7 ch hch)
      (fun comp hcomp => by
        fin_cases hcomp
        exact hshA _ m7)
      (fun comp hcomp => by
        fin_cases hcomp
        rfl)
  have hshMul : rShape (zipRas (fun x y => x * y) albedo shading) h w 4 :=
    zipRas_shape _ _ _ h w 4 hshAl hshSh
  have hshAdd : rShape (zipRas (fun x y => x + y)
      (zipRas (fun x y => x * y) albedo shading) specularity) h w 4 :=
    zipRas_shape _ _ _ h w 4 hshMul hshSp
  have hext : extract_intrinsic_images_from_lighting_passes data =
      some (albedo, shading, specularity,
        setAlphaFrom (zipRas (fun x y => x + y)
          (zipRas (fun x y => x * y) albedo shading) specularity) albedo,
        composite) := by
    unfold extract_intrinsic_images_from_lighting_passes
    rw [heqAl, Option.some_bind, heqSh, Option.some_bind, heqSp, Option.some_bind]
    simp only [heqCo, Option.some_bind]
  refine ⟨albedo, shading, specularity, _, composite, hext, hshAl, hshSh, hshSp, ?_⟩
  intro i j hi hj
  have hset := setAlphaFrom_spec _ albedo h w hshAdd hshAl i j hi hj
  refine ⟨?_, hset.2, ?_, ?_, ?_, ?_, ?_, ?_⟩
  · intro k hk
    rw [hset.1 k hk,
      rVal_zipRas _ _ _ h w 4 hshMul hshSp i j k hi hj (by omega),
      rVal_zipRas _ _ _ h w 4 hshAl hshSh i j k hi hj (by omega)]
  · have := (hvalAl i j hi hj)
    exact ⟨by rw [this.1]; simp, by rw [this.2.1]; simp, by rw [this.2.2.1]; simp⟩
  · exact (hvalAl i j hi hj).2.2.2
  · have := (hvalSh i j hi hj)
    exact ⟨by rw [this.1]; simp, by rw [this.2.1]; simp, by rw [this.2.2.1]; simp⟩
  · exact (hvalSh i j hi hj).2.2.2
  · have := (hvalSp i j hi hj)
    exact ⟨by rw [this.1]; simp, by rw [this.2.1]; simp, by rw [this.2.2.1]; simp⟩
  · exact (hvalSp i j hi hj).2.2.2

lemma intrinsic_synth_spec (h w : ℕ) (c s : ℚ) (A : Channel)
    (hA : chShape A h w) :
    ∃ albedo shading specularity recon composite,
      extract_intrinsic_images_from_lighting_passes (synthData h w c s A) =
        some (albedo, shading, specularity, recon, composite) ∧
      ∀ i j, i < h → j < w →
        (∀ k, k < 3 → rVal albedo i j k = 2 * c) ∧
        (∀ k, k < 3 → rVal shading i j k = 2 * s) ∧
        (∀ k, k < 3 → rVal specularity i j k = 2 * s) ∧
        (∀ k, k < 3 → rVal recon i j k = 4 * (c * s) + 2 * s) ∧
        rVal albedo i j 3 = chVal A i j ∧ rVal shading i j 3 = chVal A i j ∧
        rVal specularity i j 3 = chVal A i j ∧ rVal recon i j 3 = chVal A i j := by
  obtain ⟨al, sh, sp, re, co, hext, hshAl, hshSh, hshSp, hpix⟩ :=
    intrinsic_spec (synthData h w c s A) h w
      (fun p _ ch _ => synthData_shape h w c s A hA _)
      (fun p _ => synthData_shape h w c s A hA _)
      (fun p hp => by fin_cases hp <;> rfl)
  refine ⟨al, sh, sp, re, co, hext, ?_⟩
  intro i j hi hj
  obtain ⟨hrec, hrec3, ⟨ha0, ha1, ha2⟩, ha3, ⟨hs0, hs1, hs2⟩, hs3,
    ⟨hp0, hp1, hp2⟩, hp3⟩ := hpix i j hi hj
  have cc := chVal_constImg h w c i j hi hj
  have cs2 := chVal_constImg h w s i j hi hj
  have e1 : synthData h w c s A ("diffuse_color" ++ "." ++ "R") = constImg h w c := rfl
  have e2 : synthData h w c s A ("diffuse_color" ++ "." ++ "G") = constImg h w c := rfl
  have e3 : synthData h w c s A ("diffuse_color" ++ "." ++ "B") = constImg h w c := rfl
  have e4 : synthData h w c s A ("glossy_color" ++ "." ++ "R") = constImg h w c := rfl
  have e5 : synthData h w c s A ("glossy_color" ++ "." ++ "G") = constImg h w c := rfl
  have e6 : synthData h w c s A ("glossy_color" ++ "." ++ "B") = constImg h w c := rfl
  have f1 : synthData h w c s A ("diffuse_indirect" ++ "." ++ "R") = constImg h w s := rfl
  have f2 : synthData h w c s A ("diffuse_indirect" ++ "." ++ "G") = constImg h w s := rfl
  have f3 : synthData h w c s A ("diffuse_indirect" ++ "." ++ "B") = constImg h w s := rfl
  have f4 : synthData h w c s A ("diffuse_direct" ++ "." ++ "R") = constImg h w s := rfl
  have f5 : synthData h w c s A ("diffuse_direct" ++ "." ++ "G") = constImg h w s := rfl
  have f6 : synthData h w c s A ("diffuse_direct" ++ "." ++ "B") = constImg h w s := rfl
  have g1 : synthData h w c s A ("glossy_indirect" ++ "." ++ "R") = constImg h w s := rfl
  have g2 : synthData h w c s A ("glossy_indirect" ++ "." ++ "G") = constImg h w s := rfl
  have g3 : synthData h w c s A ("glossy_indirect" ++ "." ++ "B") = constImg h w s := rfl
  have g4 : synthData h w c s A ("glossy_direct" ++ "." ++ "R") = constImg h w s := rfl
  have g5 : synthData h w c s A ("glossy_direct" ++ "." ++ "G") = constImg h w s := rfl
  have g6 : synthData h w c s A ("glossy_direct" ++ "." ++ "B") = constImg h w s := rfl
  have aA1 : synthData h w c s A ("diffuse_color" ++ ".A") = A := rfl
  have aA2 : synthData h w c s A ("diffuse_indirect" ++ ".A") = A := rfl
  have aA3 : synthData h w c s A ("glossy_indirect" ++ ".A") = A := rfl
  rw [e1, e4, cc] at ha0
  rw [e2, e5, cc] at ha1
  rw [e3, e6, cc] at ha2
  rw [f1, f4, cs2] at hs0
  rw [f2, f5, cs2] at hs1
  rw [f3, f6, cs2] at hs2
  rw [g1, g4, cs2] at hp0
  rw [g2, g5, cs2] at hp1
  rw [g3, g6, cs2] at hp2
  rw [aA1] at ha3
  rw [aA2] at hs3
  rw [aA3] at hp3
  have valAl : ∀ k, k < 3 → rVal al i j k = 2 * c := by
    intro k hk
    interval_cases k
    · rw [ha0]; ring
    · rw [ha1]; ring
    · rw [ha2]; ring
  have valSh : ∀ k, k < 3 → rVal sh i j k = 2 * s := by
    intro k hk
    interval_cases k
    · rw [hs0]; ring
    · rw [hs1]; ring
    · rw [hs2]; ring
  have valSp : ∀ k, k < 3 → rVal sp i j k = 2 * s := by
    intro k hk
    interval_cases k
    · rw [hp0]; ring
    · rw [hp1]; ring
    · rw [hp2]; ring
  refine ⟨valAl, valSh, valSp, ?_, ha3, hs3, hp3, hrec3.trans ha3⟩
  intro k hk
  rw [hrec k hk, valAl k hk, valSh k hk, valSp k hk]
  ring

/-- Claim C1 counterexample: with both color passes constant C = 1 and
all four lighting passes constant S = 1 on a 1 x 1 raster with alpha 1,
specularity collapses to 2S, so the reconstruction RGB value is
4*C*S + 2*S = 6, not 4*C*S = 4 as the claim states. -/
theorem claim_C1_counterexample :
    ∃ albedo shading specularity recon composite,
      extract_intrinsic_images_from_lighting_passes
        (synthData 1 1 1 1 [[(1 : ℚ)]]) =
        some (albedo, shading, specularity, recon, composite) ∧
      rVal recon 0 0 0 ≠ 4 * 1 * 1 := by
  obtain ⟨al, sh, sp, re, co, hext, hpix⟩ :=
    intrinsic_synth_spec 1 1 1 1 [[(1 : ℚ)]] (by decide)
  refine ⟨al, sh, sp, re, co, hext, ?_⟩
  have hv := (hpix 0 0 (by norm_num) (by norm_num)).2.2.2.1 0 (by norm_num)
  rw [hv]
  norm_num

/-- Claim C1 (amended): the reconstruction RGB channels are the
elementwise product of the albedo and shading RGB channels plus the
specularity RGB channels, and its alpha channel is copied from the
albedo alpha; on synthetic data with both color passes constant C and
all four lighting passes constant S, albedo RGB is 2C, shading RGB is
2S, reconstruction RGB is 4*C*S + 2*S (the claim said 4*C*S, omitting
the collapsed specularity 2S), and all four outputs carry the shared
input alpha exactly. -/
theorem claim_C1_amended :
    (∀ (data : String → Channel) (h w : ℕ),
      (∀ p ∈ intrinsicPassNames, ∀ ch ∈ ["R", "G", "B"],
        chShape (data (p ++ "." ++ ch)) h w) →
      (∀ p ∈ intrinsicPassNames, chShape (data (p ++ ".A")) h w) →
      (∀ p ∈ intrinsicPassNames,
        data (p ++ ".A") = data ("diffuse_color" ++ ".A")) →
      ∃ albedo shading specularity recon composite,
        extract_intrinsic_images_from_lighting_passes data =
          some (albedo, shading, specularity, recon, composite) ∧
        ∀ i j, i < h → j < w →
          (∀ k, k < 3 → rVal recon i j k =
            rVal albedo i j k * rVal shading i j k + rVal specularity i j k) ∧
          rVal recon i j 3 = rVal albedo i j 3) ∧
    (∀ (h w : ℕ) (c s : ℚ) (A : Channel), chShape A h w →
      ∃ albedo shading specularity recon composite,
        extract_intrinsic_images_from_lighting_passes (synthData h w c s A) =
          some (albedo, shading, specularity, recon, composite) ∧
        ∀ i j, i < h → j < w →
          (∀ k, k < 3 → rVal albedo i j k = 2 * c) ∧
          (∀ k, k < 3 → rVal shading i j k = 2 * s) ∧
          (∀ k, k < 3 → rVal recon i j k = 4 * (c * s) + 2 * s) ∧
          rVal albedo i j 3 = chVal A i j ∧ rVal shading i j 3 = chVal A i j ∧
          rVal specularity i j 3 = chVal A i j ∧
          rVal recon i j 3 = chVal A i j) := by
  constructor
  · intro data h w h1 h2 h3
    obtain ⟨al, sh, sp, re, co, hext, _, _, _, hpix⟩ :=
      intrinsic_spec data h w h1 h2 h3
    exact ⟨al, sh, sp, re, co, hext, fun i j hi hj =>
      ⟨(hpix i j hi hj).1, (hpix i j hi hj).2.1⟩⟩
  · intro h w c s A hA
    obtain ⟨al, sh, sp, re, co, hext, hpix⟩ := intrinsic_synth_spec h w c s A hA
    exact ⟨al, sh, sp, re, co, hext, fun i j hi hj =>
      ⟨(hpix i j hi hj).1, (hpix i j hi hj).2.1, (hpix i j hi hj).2.2.2.1,
        (hpix i j hi hj).2.2.2.2⟩⟩

theorem claim_C1_witness :
    (∃ albedo shading specularity recon composite,
      extract_intrinsic_images_from_lighting_passes
        (synthData 1 1 2 3 [[(1 : ℚ)]]) =
        some (albedo, shading, specularity, recon, composite) ∧
      ∀ i j, i < 1 → j < 1 →
        (∀ k, k < 3 → rVal recon i j k =
          rVal albedo i j k * rVal shading i j k + rVal specularity i j k) ∧
        rVal recon i j 3 = rVal albedo i j 3) ∧
    (∃ albedo shading specularity recon composite,
      extract_intrinsic_images_from_lighting_passes
        (synthData 1 1 2 3 [[(1 : ℚ)]]) =
        some (albedo, shading, specularity, recon, composite) ∧
      ∀ i j, i < 1 → j < 1 →
        (∀ k, k < 3 → rVal albedo i j k = 2 * 2) ∧
        (∀ k, k < 3 → rVal shading i j k = 2 * 3) ∧
        (∀ k, k < 3 → rVal recon i j k = 4 * (2 * 3) + 2 * 3) ∧
        rVal albedo i j 3 = chVal [[(1 : ℚ)]] i j ∧
        rVal shading i j 3 = chVal [[(1 : ℚ)]] i j ∧
        rVal specularity i j 3 = chVal [[(1 : ℚ)]] i j ∧
        rVal recon i j 3 = chVal [[(1 : ℚ)]] i j) :=
  ⟨claim_C1_amended.1 (synthData 1 1 2 3 [[(1 : ℚ)]]) 1 1 (by decide) (by decide)
      (by decide),
    claim_C1_amended.2 1 1 2 3 [[(1 : ℚ)]] (by decide)⟩

/-! ## EXR.extract_normal (xiuminglib/io/exr.py) -/

/-- numpy astype(uint8) on the nonnegative in-range values produced
here: truncate toward zero and reduce modulo 256. -/
def astype_uint8 (x : ℚ) : ℕ := x.floor.toNat % 256

/-- Elementwise map over a 3-D raster. -/
def mapRas (f : ℚ → ℚ) (a : Raster3) : Raster3 :=
  a.map (fun row => row.map (fun px => px.map f))

/-- EXR.extract_normal: save np.dstack((np.dstack((R, G, B)), A)); under
vis, map each stacked component by (1 - (x / 2 + 0.5)) * dtype_max,
composite on black with the alpha broadcast over the three channels,
quantize to bytes and reverse the channel order with [..., ::-1]. -/
def extract_normal (R G B A : Channel) (vis : Bool) :
    Raster3 × Option (List (List (List ℕ))) :=
  let arr := dstackL [R, G, B]
  let saved := dstackWith arr A
  if vis then
    let im := mapRas (fun x => (1 - (x / 2 + 0.5)) * dtype_max) arr
    let alpha := dstackL [A, A, A]
    let im2 := zipRas (fun a v => a * v + (1 - a) * 0) alpha im
    (saved, some (im2.map (fun row => row.map (fun px =>
      (px.map astype_uint8).reverse))))
  else (saved, none)

lemma stackOne_px (c : Channel) (h w : ℕ) (hc : chShape c h w) (i j : ℕ)
    (hi : i < h) (hj : j < w) :
    ((stackOne c).getD i []).getD j [] = [chVal c i j] := by
  unfold stackOne chVal
  rw [getD_map_lt _ _ _ _ [] (hc.1 ▸ hi),
    getD_map_lt _ _ _ _ 0 ((chShape_row c h w hc i hi) ▸ hj)]

lemma dstackWith_px (a : Raster3) (c : Channel) (i j : ℕ)
    (hia : i < a.length) (hic : i < c.length)
    (hja : j < (a.getD i []).length) (hjc : j < (c.getD i []).length) :
    ((dstackWith a c).getD i []).getD j [] =
      ((a.getD i []).getD j []) ++ [(c.getD i []).getD j 0] := by
  unfold dstackWith
  rw [getD_zipWith_lt _ _ _ _ _ [] [] hia hic,
    getD_zipWith_lt _ _ _ _ _ [] 0 hja hjc]

lemma dstack3_px (c1 c2 c3 : Channel) (h w : ℕ) (h1 : chShape c1 h w)
    (h2 : chShape c2 h w) (h3 : chShape c3 h w) (i j : ℕ)
    (hi : i < h) (hj : j < w) :
    ((dstackL [c1, c2, c3]).getD i []).getD j [] =
      [chVal c1 i j, chVal c2 i j, chVal c3 i j] := by
  have e : dstackL [c1, c2, c3] =
      dstackWith (dstackWith (stackOne c1) c2) c3 := rfl
  have s1 : rShape (stackOne c1) h w 1 := stackOne_shape c1 h w h1
  have s2 : rShape (dstackWith (stackOne c1) c2) h w 2 :=
    dstackWith_shape _ c2 h w 1 s1 h2
  have hrow2 := s2.2 ((dstackWith (stackOne c1) c2).getD i [])
    (getD_mem_of_lt _ i [] (s2.1 ▸ hi))
  have hrow1 := s1.2 ((stackOne c1).getD i [])
    (getD_mem_of_lt _ i [] (s1.1 ▸ hi))
  rw [e, dstackWith_px _ c3 i j (s2.1 ▸ hi) (h3.1 ▸ hi) (hrow2.1 ▸ hj)
      ((chShape_row c3 h w h3 i hi) ▸ hj),
    dstackWith_px _ c2 i j (s1.1 ▸ hi) (h2.1 ▸ hi) (hrow1.1 ▸ hj)
      ((chShape_row c2 h w h2 i hi) ▸ hj),
    stackOne_px c1 h w h1 i j hi hj]
  rfl

lemma dstack3_shape (c1 c2 c3 : Channel) (h w : ℕ) (h1 : chShape c1 h w)
    (h2 : chShape c2 h w) (h3 : chShape c3 h w) :
    rShape (dstackL [c1, c2, c3]) h w 3 := by
  have e : dstackL [c1, c2, c3] =
      dstackWith (dstackWith (stackOne c1) c2) c3 := rfl
  rw [e]
  exact dstackWith_shape _ c3 h w 2
    (dstackWith_shape _ c2 h w 1 (stackOne_shape c1 h w h1) h2) h3

lemma mapRas_px (f : ℚ → ℚ) (a : Raster3) (h w k0 : ℕ) (hs : rShape a h w k0)
    (i j : ℕ) (hi : i < h) (hj : j < w) :
    ((mapRas f a).getD i []).getD j [] =
      (((a.getD i []).getD j []).map f) := by
  have hrow := hs.2 (a.getD i []) (getD_mem_of_lt a i [] (hs.1 ▸ hi))
  unfold mapRas
  rw [getD_map_lt _ _ _ _ [] (hs.1 ▸ hi),
    getD_map_lt _ _ _ _ [] (hrow.1 ▸ hj)]

lemma mapRas_shape (f : ℚ → ℚ) (a : Raster3) (h w k0 : ℕ)
    (hs : rShape a h w k0) : rShape (mapRas f a) h w k0 := by
  refine ⟨by simp [mapRas, hs.1], ?_⟩
  intro row hrow
  rcases List.mem_map.1 hrow with ⟨r, hr, rfl⟩
  refine ⟨by simp [(hs.2 r hr).1], ?_⟩
  intro px hpx
  rcases List.mem_map.1 hpx with ⟨p, hp, rfl⟩
  simp [(hs.2 r hr).2 p hp]

/-- Claim C4: under vis, the visualization value for each normal
component x is (1 - (x / 2 + 0.5)) * dtype_max composited on black with
the alpha as weight, the byte-quantized visualization pixel carries the
channels in reversed (B, G, R) order, and the saved numeric raster keeps
the original R, G, B, A order. -/
theorem claim_C4 (R G B A : Channel) (h w : ℕ) (hR : chShape R h w)
    (hG : chShape G h w) (hB : chShape B h w) (hA : chShape A h w) :
    ∃ png, extract_normal R G B A true =
        (dstackWith (dstackL [R, G, B]) A, some png) ∧
      ∀ i j, i < h → j < w →
        ((png.getD i []).getD j [] =
          [astype_uint8 (chVal A i j *
              ((1 - (chVal B i j / 2 + 0.5)) * dtype_max) +
              (1 - chVal A i j) * 0),
            astype_uint8 (chVal A i j *
              ((1 - (chVal G i j / 2 + 0.5)) * dtype_max) +
              (1 - chVal A i j) * 0),
            astype_uint8 (chVal A i j *
              ((1 - (chVal R i j / 2 + 0.5)) * dtype_max) +
              (1 - chVal A i j) * 0)]) ∧
        rVal (dstackWith (dstackL [R, G, B]) A) i j 0 = chVal R i j ∧
        rVal (dstackWith (dstackL [R, G, B]) A) i j 1 = chVal G i j ∧
        rVal (dstackWith (dstackL [R, G, B]) A) i j 2 = chVal B i j ∧
        rVal (dstackWith (dstackL [R, G, B]) A) i j 3 = chVal A i j := by
  have harr : rShape (dstackL [R, G, B]) h w 3 := dstack3_shape R G B h w hR hG hB
  have him : rShape (mapRas (fun x => (1 - (x / 2 + 0.5)) * dtype_max)
      (dstackL [R, G, B])) h w 3 := mapRas_shape _ _ h w 3 harr
  have halpha : rShape (dstackL [A, A, A]) h w 3 := dstack3_shape A A A h w hA hA hA
  refine ⟨_, rfl, ?_⟩
  intro i j hi hj
  constructor
  · have hzipshape := zipRas_shape (fun a v => a * v + (1 - a) * 0)
      (dstackL [A, A, A]) _ h w 3 halpha him
    have hrowA := halpha.2 ((dstackL [A, A, A]).getD i [])
      (getD_mem_of_lt _ i [] (halpha.1 ▸ hi))
    have hrowI := him.2 ((mapRas (fun x => (1 - (x / 2 + 0.5)) * dtype_max)
        (dstackL [R, G, B])).getD i [])
      (getD_mem_of_lt _ i [] (him.1 ▸ hi))
    have hrowZ := hzipshape.2 ((zipRas (fun a v => a * v + (1 - a) * 0)
        (dstackL [A, A, A]) (mapRas (fun x => (1 - (x / 2 + 0.5)) * dtype_max)
          (dstackL [R, G, B]))).getD i [])
      (getD_mem_of_lt _ i [] (hzipshape.1 ▸ hi))
    rw [getD_map_lt _ _ _ _ [] (hzipshape.1 ▸ hi),
      getD_map_lt _ _ _ _ [] (hrowZ.1 ▸ hj)]
    have hzpx : ((zipRas (fun a v => a * v + (1 - a) * 0) (dstackL [A, A, A])
        (mapRas (fun x => (1 - (x / 2 + 0.5)) * dtype_max)
          (dstackL [R, G, B]))).getD i []).getD j [] =
        List.zipWith (fun a v => a * v + (1 - a) * 0)
          (((dstackL [A, A, A]).getD i []).getD j [])
          (((mapRas (fun x => (1 - (x / 2 + 0.5)) * dtype_max)
            (dstackL [R, G, B])).getD i []).getD j []) := by
      unfold zipRas
      rw [getD_zipWith_lt _ _ _ _ _ [] [] (halpha.1 ▸ hi) (him.1 ▸ hi),
        getD_zipWith_lt _ _ _ _ _ [] [] (hrowA.1 ▸ hj) (hrowI.1 ▸ hj)]
    rw [hzpx, dstack3_px A A A h w hA hA hA i j hi hj,
      mapRas_px _ _ h w 3 harr i j hi hj,
      dstack3_px R G B h w hR hG hB i j hi hj]
    rfl
  · have hd := rVal_dstackWith (dstackL [R, G, B]) A h w 3 harr hA i j hi hj
    rcases (dstack4_spec R G B A h w hR hG hB hA).2 i j hi hj with ⟨v0, v1, v2, v3⟩
    have e4 : dstackWith (dstackL [R, G, B]) A = dstackL [R, G, B, A] := rfl
    rw [e4]
    exact ⟨v0, v1, v2, v3⟩

theorem claim_C4_witness :
    ∃ png, extract_normal [[(1 : ℚ)]] [[(0 : ℚ)]] [[(0 : ℚ)]] [[(1 : ℚ)]] true =
        (dstackWith (dstackL [[[(1 : ℚ)]], [[(0 : ℚ)]], [[(0 : ℚ)]]]) [[(1 : ℚ)]],
          some png) ∧
      ∀ i j, i < 1 → j < 1 →
        ((png.getD i []).getD j [] =
          [astype_uint8 (chVal [[(1 : ℚ)]] i j *
              ((1 - (chVal [[(0 : ℚ)]] i j / 2 + 0.5)) * dtype_max) +
              (1 - chVal [[(1 : ℚ)]] i j) * 0),
            astype_uint8 (chVal [[(1 : ℚ)]] i j *
              ((1 - (chVal [[(0 : ℚ)]] i j / 2 + 0.5)) * dtype_max) +
              (1 - chVal [[(1 : ℚ)]] i j) * 0),
            astype_uint8 (chVal [[(1 : ℚ)]] i j *
              ((1 - (chVal [[(1 : ℚ)]] i j / 2 + 0.5)) * dtype_max) +
              (1 - chVal [[(1 : ℚ)]] i j) * 0)]) ∧
        rVal (dstackWith (dstackL [[[(1 : ℚ)]], [[(0 : ℚ)]], [[(0 : ℚ)]]])
          [[(1 : ℚ)]]) i j 0 = chVal [[(1 : ℚ)]] i j ∧
        rVal (dstackWith (dstackL [[[(1 : ℚ)]], [[(0 : ℚ)]], [[(0 : ℚ)]]])
          [[(1 : ℚ)]]) i j 1 = chVal [[(0 : ℚ)]] i j ∧
        rVal (dstackWith (dstackL [[[(1 : ℚ)]], [[(0 : ℚ)]], [[(0 : ℚ)]]])
          [[(1 : ℚ)]]) i j 2 = chVal [[(0 : ℚ)]] i j ∧
        rVal (dstackWith (dstackL [[[(1 : ℚ)]], [[(0 : ℚ)]], [[(0 : ℚ)]]])
          [[(1 : ℚ)]]) i j 3 = chVal [[(1 : ℚ)]] i j :=
  claim_C4 [[(1 : ℚ)]] [[(0 : ℚ)]] [[(0 : ℚ)]] [[(1 : ℚ)]] 1 1
    (by decide) (by decide) (by decide) (by decide)

/-! ## blender/light.py -/

/-- The mutable fields of a lamp data block touched by the helpers. -/
structure LightData where
  shadow_soft_size : ℚ
  size : ℚ
  emission_strength : Option ℚ
deriving DecidableEq

/-- A scene object as far as the light helpers see one. -/
structure BlenderObject where
  name : String
  light_type : String
  location : ℚ × ℚ × ℚ
  rotation : ℚ × ℚ × ℚ
  data : LightData
deriving DecidableEq

/-- The scene state the light helpers read and mutate: the object list
and the render engine name. -/
structure BlenderScene where
  objects : List BlenderObject
  engine : String
deriving DecidableEq

/-- Modelled host API: bpy.ops.object.lamp_add appends a fresh lamp
object to the scene and makes it the active object (the last one). -/
def lamp_add (st : BlenderScene) (ty : String) (loc rot : ℚ × ℚ × ℚ) :
    BlenderScene :=
  { st with objects := st.objects ++
      [{ name := ty, light_type := ty, location := loc, rotation := rot,
         data := { shadow_soft_size := 0, size := 0,
                   emission_strength := none } }] }

/-- Mutate the active (last-added) object in place. -/
def updateActive (st : BlenderScene) (f : BlenderObject → BlenderObject) :
    BlenderScene :=
  { st with objects := st.objects.dropLast ++ (st.objects.getLast?.map f).toList }

/-- add_light_sun: add the lamp, optionally rename it, set the shadow
soft size, then look at the engine; under CYCLES set the emission
strength, otherwise raise NotImplementedError(engine).  The state the
call leaves behind is returned alongside the outcome. -/
def add_light_sun (st : BlenderScene) (xyz rot_vec_rad : ℚ × ℚ × ℚ)
    (name : Option String) (energy size : ℚ) :
    BlenderScene × Except String BlenderObject :=
  let st1 := lamp_add st "SUN" xyz rot_vec_rad
  let st2 := match name with
    | some n => updateActive st1 (fun o => { o with name := n })
    | none => st1
  let st3 := updateActive st2 (fun o =>
    { o with data := { o.data with shadow_soft_size := size } })
  if st3.engine = "CYCLES" then
    let st4 := updateActive st3 (fun o =>
      { o with data := { o.data with emission_strength := some energy } })
    (st4, match st4.objects.getLast? with
      | some o => Except.ok o
      | none => Except.error "no active object")
  else (st3, Except.error st3.engine)

/-- add_light_area: as add_light_sun but with an AREA lamp whose
data.size field is set instead of the shadow soft size. -/
def add_light_area (st : BlenderScene) (xyz rot_vec_rad : ℚ × ℚ × ℚ)
    (name : Option String) (energy size : ℚ) :
    BlenderScene × Except String BlenderObject :=
  let st1 := lamp_add st "AREA" xyz rot_vec_rad
  let st2 := match name with
    | some n => updateActive st1 (fun o => { o with name := n })
    | none => st1
  let st3 := updateActive st2 (fun o =>
    { o with data := { o.data with size := size } })
  if st3.engine = "CYCLES" then
    let st4 := updateActive st3 (fun o =>
      { o with data := { o.data with emission_strength := some energy } })
    (st4, match st4.objects.getLast? with
      | some o => Except.ok o
      | none => Except.error "no active object")
  else (st3, Except.error st3.engine)

/-- add_light_point: omnidirectional point lamp, hard shadows
(shadow_soft_size 0), same engine check. -/
def add_light_point (st : BlenderScene) (xyz : ℚ × ℚ × ℚ)
    (name : Option String) (energy : ℚ) :
    BlenderScene × Except String BlenderObject :=
  let st1 := lamp_add st "POINT" xyz (0, 0, 0)
  let st2 := match name with
    | some n => updateActive st1 (fun o => { o with name := n })
    | none => st1
  let st3 := updateActive st2 (fun o =>
    { o with data := { o.data with shadow_soft_size := 0 } })
  if st3.engine = "CYCLES" then
    let st4 := updateActive st3 (fun o =>
      { o with data := { o.data with emission_strength := some energy } })
    (st4, match st4.objects.getLast? with
      | some o => Except.ok o
      | none => Except.error "no active object")
  else (st3, Except.error st3.engine)

lemma updateActive_append (st : BlenderScene) (l : List BlenderObject)
    (x : BlenderObject) (f : BlenderObject → BlenderObject)
    (hobj : st.objects = l ++ [x]) :
    (updateActive st f).objects = l ++ [f x] ∧
      (updateActive st f).engine = st.engine := by
  unfold updateActive
  simp [hobj]

lemma add_light_sun_not_cycles (st : BlenderScene) (xyz rot : ℚ × ℚ × ℚ)
    (name : Option String) (energy size : ℚ) (hne : st.engine ≠ "CYCLES") :
    ∃ lamp, (add_light_sun st xyz rot name energy size).2 =
        Except.error st.engine ∧
      (add_light_sun st xyz rot name energy size).1.objects =
        st.objects ++ [lamp] := by
  cases name with
  | none =>
    simp only [add_light_sun, lamp_add, updateActive, List.dropLast_concat,
      List.getLast?_concat, Option.map_some', Option.toList_some]
    rw [if_neg hne]
    exact ⟨_, rfl, rfl⟩
  | some n =>
    simp only [add_light_sun, lamp_add, updateActive, List.dropLast_concat,
      List.getLast?_concat, Option.map_some', Option.toList_some]
    rw [if_neg hne]
    exact ⟨_, rfl, rfl⟩

lemma add_light_area_not_cycles (st : BlenderScene) (xyz rot : ℚ × ℚ × ℚ)
    (name : Option String) (energy size : ℚ) (hne : st.engine ≠ "CYCLES") :
    ∃ lamp, (add_light_area st xyz rot name energy size).2 =
        Except.error st.engine ∧
      (add_light_area st xyz rot name energy size).1.objects =
        st.objects ++ [lamp] := by
  cases name with
  | none =>
    simp only [add_light_area, lamp_add, updateActive, List.dropLast_concat,
      List.getLast?_concat, Option.map_some', Option.toList_some]
    rw [if_neg hne]
    exact ⟨_, rfl, rfl⟩
  | some n =>
    simp only [add_light_area, lamp_add, updateActive, List.dropLast_concat,
      List.getLast?_concat, Option.map_some', Option.toList_some]
    rw [if_neg hne]
    exact ⟨_, rfl, rfl⟩

lemma add_light_point_not_cycles (st : BlenderScene) (xyz : ℚ × ℚ × ℚ)
    (name : Option String) (energy : ℚ) (hne : st.engine ≠ "CYCLES") :
    ∃ lamp, (add_light_point st xyz name energy).2 =
        Except.error st.engine ∧
      (add_light_point st xyz name energy).1.objects =
        st.objects ++ [lamp] := by
  cases name with
  | none =>
    simp only [add_light_point, lamp_add, updateActive, List.dropLast_concat,
      List.getLast?_concat, Option.map_some', Option.toList_some]
    rw [if_neg hne]
    exact ⟨_, rfl, rfl⟩
  | some n =>
    simp only [add_light_point, lamp_add, updateActive, List.dropLast_concat,
      List.getLast?_concat, Option.map_some', Option.toList_some]
    rw [if_neg hne]
    exact ⟨_, rfl, rfl⟩

/-- Claim C6 counterexample: calling add_light_sun on an empty scene
whose engine is BLENDER_RENDER raises NotImplementedError with the
engine name, yet the scene is not unchanged: the lamp added before the
engine check is left in the scene, so the object list is no longer
empty. -/
theorem claim_C6_counterexample :
    (add_light_sun { objects := [], engine := "BLENDER_RENDER" }
        (0, 0, 0) (0, 0, 0) none 1 0).2 = Except.error "BLENDER_RENDER" ∧
    (add_light_sun { objects := [], engine := "BLENDER_RENDER" }
        (0, 0, 0) (0, 0, 0) none 1 0).1.objects ≠ [] := by
  constructor
  · rfl
  · intro hcon
    simp [add_light_sun, lamp_add, updateActive] at hcon

/-- Claim C6 (amended): under any engine other than CYCLES each of
add_light_sun, add_light_area and add_light_point raises
NotImplementedError carrying the engine name instead of silently
ignoring the energy setting; however the lamp was already added before
the engine check, so the resulting scene keeps exactly one new light
object appended (the claim said the scene is left unchanged). -/
theorem claim_C6_amended (st : BlenderScene) (xyz rot : ℚ × ℚ × ℚ)
    (name : Option String) (energy size : ℚ) (hne : st.engine ≠ "CYCLES") :
    (∃ lamp, (add_light_sun st xyz rot name energy size).2 =
        Except.error st.engine ∧
      (add_light_sun st xyz rot name energy size).1.objects =
        st.objects ++ [lamp]) ∧
    (∃ lamp, (add_light_area st xyz rot name energy size).2 =
        Except.error st.engine ∧
      (add_light_area st xyz rot name energy size).1.objects =
        st.objects ++ [lamp]) ∧
    (∃ lamp, (add_light_point st xyz name energy).2 =
        Except.error st.engine ∧
      (add_light_point st xyz name energy).1.objects =
        st.objects ++ [lamp]) :=
  ⟨add_light_sun_not_cycles st xyz rot name energy size hne,
    add_light_area_not_cycles st xyz rot name energy size hne,
    add_light_point_not_cycles st xyz name energy hne⟩

theorem claim_C6_witness :
    (∃ lamp, (add_light_sun { objects := [], engine := "EEVEE" }
        (0, 0, 0) (0, 0, 0) none 1 0).2 = Except.error "EEVEE" ∧
      (add_light_sun { objects := [], engine := "EEVEE" }
        (0, 0, 0) (0, 0, 0) none 1 0).1.objects = [] ++ [lamp]) ∧
    (∃ lamp, (add_light_area { objects := [], engine := "EEVEE" }
        (0, 0, 0) (0, 0, 0) none 1 0).2 = Except.error "EEVEE" ∧
      (add_light_area { objects := [], engine := "EEVEE" }
        (0, 0, 0) (0, 0, 0) none 1 0).1.objects = [] ++ [lamp]) ∧
    (∃ lamp, (add_light_point { objects := [], engine := "EEVEE" }
        (0, 0, 0) none 1).2 = Except.error "EEVEE" ∧
      (add_light_point { objects := [], engine := "EEVEE" }
        (0, 0, 0) none 1).1.objects = [] ++ [lamp]) :=
  claim_C6_amended { objects := [], engine := "EEVEE" } (0, 0, 0) (0, 0, 0)
    none 1 0 (by decide)

/-! ## vid.py images2video -/

/-- A video frame: its shape (shape[:2]) and its pixel payload. -/
structure Frame where
  height : ℕ
  width : ℕ
  pixels : List (List ℕ)
deriving DecidableEq

/-- Effect record of the cv2.VideoWriter: the frames written so far and
whether release() ran. -/
structure VideoWriterState where
  frames_written : List Frame
  released : Bool
deriving DecidableEq

/-- The write loop of images2video: each frame is written only after the
assertion frame.shape[:2] == (h, w); the writer is released only after
the loop finishes. -/
def writeLoop (h w : ℕ) (vw : VideoWriterState) :
    List Frame → VideoWriterState × Except String Unit
  | [] => ({ vw with released := true }, Except.ok ())
  | f :: fs =>
    if f.height = h ∧ f.width = w then
      writeLoop h w { vw with frames_written := vw.frames_written ++ [f] } fs
    else (vw, Except.error "All frames must have the same shape")

/-- images2video: h, w come from imgs[0] (IndexError on an empty list),
then every frame, the first included, runs through the assert-and-write
loop. -/
def images2video (imgs : List Frame) (fps : ℕ) :
    VideoWriterState × Except String Unit :=
  match imgs with
  | [] => ({ frames_written := [], released := false }, Except.error "IndexError")
  | i0 :: _ =>
    writeLoop i0.height i0.width { frames_written := [], released := false } imgs

lemma takeWhile_decide_mem {α : Type} (p : α → Prop) [DecidablePred p] :
    ∀ l : List α, ∀ x ∈ l.takeWhile (fun g => decide (p g)), p x := by
  intro l
  induction l with
  | nil => simp
  | cons y ys ih =>
    intro x hx
    rw [List.takeWhile_cons] at hx
    by_cases hy : p y
    · simp only [decide_eq_true hy, if_true, List.mem_cons] at hx
      rcases hx with rfl | hx
      · exact hy
      · exact ih x hx
    · simp only [decide_eq_false hy] at hx
      simp at hx

lemma writeLoop_fail_spec (h w : ℕ) (fs : List Frame) : ∀ acc : List Frame,
    (∃ f ∈ fs, ¬ (f.height = h ∧ f.width = w)) →
    writeLoop h w { frames_written := acc, released := false } fs =
      (⟨acc ++ fs.takeWhile (fun f => decide (f.height = h ∧ f.width = w)),
        false⟩,
        Except.error "All frames must have the same shape") := by
  induction fs with
  | nil =>
    intro acc h0
    simp at h0
  | cons f fs ih =>
    intro acc hbad
    by_cases hf : f.height = h ∧ f.width = w
    · have hstep : writeLoop h w { frames_written := acc, released := false }
          (f :: fs) =
          writeLoop h w { frames_written := acc ++ [f], released := false } fs := by
        simp [writeLoop, hf]
      have hbad2 : ∃ g ∈ fs, ¬ (g.height = h ∧ g.width = w) := by
        rcases hbad with ⟨g, hg, hgp⟩
        rcases List.mem_cons.1 hg with rfl | hg
        · exact absurd hf hgp
        · exact ⟨g, hg, hgp⟩
      rw [hstep, ih (acc ++ [f]) hbad2]
      simp [List.takeWhile_cons, hf]
    · simp [writeLoop, hf, List.takeWhile_cons]

lemma writeLoop_ok_spec (h w : ℕ) (fs : List Frame) : ∀ acc : List Frame,
    (∀ f ∈ fs, f.height = h ∧ f.width = w) →
    writeLoop h w { frames_written := acc, released := false } fs =
      (⟨acc ++ fs, true⟩, Except.ok ()) := by
  induction fs with
  | nil =>
    intro acc _
    simp [writeLoop]
  | cons f fs ih =>
    intro acc hok
    have hf := hok f (List.mem_cons_self f fs)
    have hstep : writeLoop h w { frames_written := acc, released := false }
        (f :: fs) =
        writeLoop h w { frames_written := acc ++ [f], released := false } fs := by
      simp [writeLoop, hf]
    rw [hstep, ih (acc ++ [f]) (fun g hg => hok g (List.mem_cons_of_mem f hg))]
    simp

/-- Claim C8: images2video requires every frame to share the height and
width of the first frame; with a mismatched frame present it fails with
the shape assertion, having written exactly the longest initial run of
matching frames and never reached the final release, so the mismatched
frame is not written and the container is left unfinalized; when every
frame matches, all frames are written and the writer is released. -/
theorem claim_C8 (i0 : Frame) (rest : List Frame) (fps : ℕ) :
    ((∃ f ∈ i0 :: rest, ¬ (f.height = i0.height ∧ f.width = i0.width)) →
      images2video (i0 :: rest) fps =
        (⟨(i0 :: rest).takeWhile
            (fun f => decide (f.height = i0.height ∧ f.width = i0.width)),
          false⟩,
          Except.error "All frames must have the same shape") ∧
      ∀ f ∈ (i0 :: rest).takeWhile
          (fun f => decide (f.height = i0.height ∧ f.width = i0.width)),
        f.height = i0.height ∧ f.width = i0.width) ∧
    ((∀ f ∈ i0 :: rest, f.height = i0.height ∧ f.width = i0.width) →
      images2video (i0 :: rest) fps =
        (⟨i0 :: rest, true⟩, Except.ok ())) := by
  constructor
  · intro hbad
    constructor
    · have := writeLoop_fail_spec i0.height i0.width (i0 :: rest) [] hbad
      simpa [images2video] using this
    · intro f hf
      exact takeWhile_decide_mem
        (fun g => g.height = i0.height ∧ g.width = i0.width) (i0 :: rest) f hf
  · intro hok
    have := writeLoop_ok_spec i0.height i0.width (i0 :: rest) [] hok
    simpa [images2video] using this

theorem claim_C8_witness :
    (images2video [⟨1, 1, [[0]]⟩, ⟨2, 1, [[0], [0]]⟩] 24 =
        (⟨([⟨1, 1, [[0]]⟩, ⟨2, 1, [[0], [0]]⟩] :
            List Frame).takeWhile
            (fun f => decide (f.height = 1 ∧ f.width = 1)),
          false⟩,
          Except.error "All frames must have the same shape") ∧
      ∀ f ∈ ([⟨1, 1, [[0]]⟩, ⟨2, 1, [[0], [0]]⟩] : List Frame).takeWhile
          (fun f => decide (f.height = 1 ∧ f.width = 1)),
        f.height = 1 ∧ f.width = 1) ∧
    images2video [⟨1, 1, [[0]]⟩, ⟨1, 1, [[7]]⟩] 24 =
      (⟨[⟨1, 1, [[0]]⟩, ⟨1, 1, [[7]]⟩], true⟩, Except.ok ()) :=
  ⟨(claim_C8 ⟨1, 1, [[0]]⟩ [⟨2, 1, [[0], [0]]⟩] 24).1 (by decide),
    (claim_C8 ⟨1, 1, [[0]]⟩ [⟨1, 1, [[7]]⟩] 24).2 (by decide)⟩
